import Mathlib

/-!
Verification of the Zentral Santa voting/trust-state engine
(`zentral.contrib.santa.ballot_box`) against its natural-language
specification.  The engine's module itself is not part of the staged
sources; only its test suite (`src/tests/santa/test_ballot_box.py`) is.
The definitions below are therefore modelled from the specification,
with every behaviour that the staged tests pin down taken from those
tests (the tests are the repository code that decides each claim).

Time is modelled as a discrete counter (`now : Nat`); machine integers
of the source are unbounded `Int` (scores and weights are small and the
source uses arbitrary-precision Python ints, so no wrap-around is
modelled).  Database rows are Lean structures, tables are lists or
total functions with the lazy-creation default, and the transactional
all-or-nothing write path of §5 of the spec is modelled by running each
operation as a pure function that returns either the new state or an
error together with the unchanged state.
-/

namespace Santa

/-- Target types (`Target.Type` in the source's data model). -/
inductive TargetType
  | TEAM_ID
  | SIGNING_ID
  | CERTIFICATE
  | CDHASH
  | BINARY
  | BUNDLE
  | METABUNDLE
  deriving DecidableEq, Repr

/-- Trust states of a `TargetState` row (`TargetState.State`). -/
inductive TState
  | BANNED
  | SUSPECT
  | UNTRUSTED
  | PARTIALLY_ALLOWLISTED
  | GLOBALLY_ALLOWLISTED
  deriving DecidableEq, Repr

/-- Rule policies (`Rule.Policy`). -/
inductive Policy
  | ALLOWLIST
  | BLOCKLIST
  deriving DecidableEq, Repr

/-- Modelled from the spec: a `Configuration` row's voting fields (§3):
identifier, default ballot target types, default voting weight and the
three thresholds. -/
structure Configuration where
  id : Nat
  defaultBallotTargetTypes : List TargetType
  defaultVotingWeight : Int
  partiallyAllowlistedThreshold : Int
  globallyAllowlistedThreshold : Int
  bannedThreshold : Int
  deriving Repr

/-- Modelled from the spec: a `TargetState` row for one
(target, configuration) pair (§3): score, state, flagged, reset_at. -/
structure TargetStateRow where
  score : Int
  state : TState
  flagged : Bool
  resetAt : Option Nat
  deriving DecidableEq, Repr

/-- Lazily created `TargetState` rows start untrusted with score 0
(test_ballot_box_init_with_realm_user). -/
def initialTargetState : TargetStateRow :=
  { score := 0, state := .UNTRUSTED, flagged := false, resetAt := none }

/-- Modelled from the spec: the trust-state machine (§4.4) mapping a
score to a state.  The spec's table is pure in (score, thresholds), but
the staged tests show that the two malware states are gated on the
voter's `can_mark_malware` capability: in
`test_ballot_box_cast_votes` a voter without the capability drives the
score to -17 and the stored state is UNTRUSTED with flagged true, while
in `test_ballot_box_update_target_state_to_suspect_to_untrusted` a
voter holding the capability reaches SUSPECT at score -3.  The gate is
therefore part of the modelled state machine. -/
def computeState (cfg : Configuration) (canMarkMalware : Bool) (score : Int) : TState :=
  if canMarkMalware = true ∧ score ≤ cfg.bannedThreshold then .BANNED
  else if canMarkMalware = true ∧ score < 0 then .SUSPECT
  else if score < cfg.partiallyAllowlistedThreshold then .UNTRUSTED
  else if score < cfg.globallyAllowlistedThreshold then .PARTIALLY_ALLOWLISTED
  else .GLOBALLY_ALLOWLISTED

/-- Modelled from the spec: the flagged bit recomputed on every score
change; a target is flagged exactly when its score is negative
(§4.4 table rows with flagged = true are the negative-score rows, and
`test_ballot_box_cast_votes` shows flagged = true at score -17 even in
the UNTRUSTED state). -/
def computeFlagged (score : Int) : Bool :=
  score < 0

/-- The (state, flagged) pair produced by one score update. -/
def computeStatePair (cfg : Configuration) (canMarkMalware : Bool) (score : Int) :
    TState × Bool :=
  (computeState cfg canMarkMalware score, computeFlagged score)

/-- The trust-state machine exactly as the claim and the spec's §4.4
table state it: a pure function of (score, thresholds) alone, with no
dependence on the voter. -/
def specTableStatePair (cfg : Configuration) (score : Int) : TState × Bool :=
  if score ≤ cfg.bannedThreshold then (.BANNED, true)
  else if score < 0 then (.SUSPECT, true)
  else if score < cfg.partiallyAllowlistedThreshold then (.UNTRUSTED, false)
  else if score < cfg.globallyAllowlistedThreshold then (.PARTIALLY_ALLOWLISTED, false)
  else (.GLOBALLY_ALLOWLISTED, false)

/-- The configuration of `test_ballot_box_cast_votes`: model defaults
with voting weight 17 (thresholds 5 / 50 / -26 as in the scenarios of
§8 of the spec). -/
def castVotesTestCfg : Configuration :=
  { id := 1
    defaultBallotTargetTypes := [.BINARY]
    defaultVotingWeight := 17
    partiallyAllowlistedThreshold := 5
    globallyAllowlistedThreshold := 50
    bannedThreshold := -26 }

/-- C1, counterexample.  At score -17 (the situation of
`test_ballot_box_cast_votes`: one downvote of weight 17 by a voter
without `can_mark_malware`) the engine stores (UNTRUSTED, flagged),
not the (SUSPECT, flagged) the claim's table demands for
banned_threshold < score < 0, and the outcome changes when only the
voter's `can_mark_malware` permission changes — so (state, flagged) is
not a function of (score, thresholds) alone. -/
theorem trust_state_machine_not_pure_in_score :
    computeStatePair castVotesTestCfg false (-17) = (.UNTRUSTED, true) ∧
    computeStatePair castVotesTestCfg true (-17) = (.SUSPECT, true) ∧
    specTableStatePair castVotesTestCfg (-17) = (.SUSPECT, true) ∧
    computeStatePair castVotesTestCfg false (-17) ≠ specTableStatePair castVotesTestCfg (-17) ∧
    computeStatePair castVotesTestCfg false (-17) ≠ computeStatePair castVotesTestCfg true (-17) := by
  refine ⟨by decide, by decide, by decide, by decide, by decide⟩

/-- C1, amended.  The trust-state machine is a pure function of
(score, thresholds, voter's can_mark_malware): with the capability,
score ≤ banned_threshold yields BANNED and banned_threshold < score < 0
yields SUSPECT, both flagged; without it a negative score yields
UNTRUSTED yet still flagged; 0 ≤ score < partially_allowlisted_threshold
yields UNTRUSTED unflagged; partially_allowlisted_threshold ≤ score <
globally_allowlisted_threshold yields PARTIALLY_ALLOWLISTED; score ≥
globally_allowlisted_threshold yields GLOBALLY_ALLOWLISTED; flagged is
exactly score < 0. -/
theorem trust_state_machine_cases (cfg : Configuration) (cmm : Bool) (score : Int)
    (hb : cfg.bannedThreshold < 0)
    (hp : 0 < cfg.partiallyAllowlistedThreshold)
    (hg : cfg.partiallyAllowlistedThreshold ≤ cfg.globallyAllowlistedThreshold) :
    (cmm = true → score ≤ cfg.bannedThreshold →
      computeStatePair cfg cmm score = (.BANNED, true)) ∧
    (cmm = true → cfg.bannedThreshold < score → score < 0 →
      computeStatePair cfg cmm score = (.SUSPECT, true)) ∧
    (cmm = false → score < 0 →
      computeStatePair cfg cmm score = (.UNTRUSTED, true)) ∧
    (0 ≤ score → score < cfg.partiallyAllowlistedThreshold →
      computeStatePair cfg cmm score = (.UNTRUSTED, false)) ∧
    (cfg.partiallyAllowlistedThreshold ≤ score → score < cfg.globallyAllowlistedThreshold →
      computeStatePair cfg cmm score = (.PARTIALLY_ALLOWLISTED, false)) ∧
    (cfg.globallyAllowlistedThreshold ≤ score →
      computeStatePair cfg cmm score = (.GLOBALLY_ALLOWLISTED, false)) := by
  refine ⟨?_, ?_, ?_, ?_, ?_, ?_⟩ <;>
    simp only [computeStatePair, computeState, computeFlagged] <;>
    intros <;> split_ifs <;>
    simp_all only [Prod.mk.injEq, decide_eq_true_eq, decide_eq_false_iff_not,
      Bool.true_eq_false, Bool.false_eq_true, not_lt, and_true, true_and,
      and_imp, true_iff, iff_true, not_and, not_true, not_false_iff] <;>
    omega

/-- C1 witness: the amended state machine evaluated at the concrete
thresholds 5 / 50 / -26 of the test scenarios. -/
theorem trust_state_machine_cases_witness :
    castVotesTestCfg.bannedThreshold < 0 ∧
    0 < castVotesTestCfg.partiallyAllowlistedThreshold ∧
    castVotesTestCfg.partiallyAllowlistedThreshold ≤
      castVotesTestCfg.globallyAllowlistedThreshold ∧
    computeStatePair castVotesTestCfg true (-50) = (.BANNED, true) ∧
    computeStatePair castVotesTestCfg false (-17) = (.UNTRUSTED, true) ∧
    computeStatePair castVotesTestCfg true 6 = (.PARTIALLY_ALLOWLISTED, false) := by
  refine ⟨by decide, by decide, by decide, ?_, ?_, ?_⟩
  · exact (trust_state_machine_cases castVotesTestCfg true (-50)
      (by decide) (by decide) (by decide)).1 rfl (by decide)
  · exact (trust_state_machine_cases castVotesTestCfg false (-17)
      (by decide) (by decide) (by decide)).2.2.1 rfl (by decide)
  · exact (trust_state_machine_cases castVotesTestCfg true 6
      (by decide) (by decide) (by decide)).2.2.2.2.1 (by decide) (by decide)

/-! ## checkVotingAllowed (spec §4.3, claim C4) -/

/-- Display names of the target types, as used in the engine's
messages and related-target keys (test_ballot_box_related_targets). -/
def targetTypeName : TargetType → String
  | .TEAM_ID => "TEAMID"
  | .SIGNING_ID => "SIGNINGID"
  | .CERTIFICATE => "CERTIFICATE"
  | .CDHASH => "CDHASH"
  | .BINARY => "BINARY"
  | .BUNDLE => "BUNDLE"
  | .METABUNDLE => "METABUNDLE"

/-- Modelled from the spec: everything
`check_voting_allowed_for_configuration` reads about one
(voter, configuration, target) triple: the voter's anonymity, the link
to the configuration, the target's state row, the bundle/aggregation
facts, the voter's three permissions, the allowed target types and the
conflicting-rule flag (§4.3 checks 1-12). -/
structure VotingContext where
  isAnonymous : Bool
  cfgLinked : Bool
  targetType : TargetType
  ts : TargetStateRow
  missingBundleInfo : Bool
  containsFlaggedBinary : Bool
  canUnflagTarget : Bool
  canMarkMalware : Bool
  canVoteOnType : Bool
  bannedCertAncestor : Bool
  canResetTarget : Bool
  conflictingRule : Bool
  deriving Repr

/-- Modelled from the spec: `checkVotingAllowed(cfg, isYesVote)` as the
source implements it, a sequence of twelve ordered checks returning the
first failing check's reason (§4.3; reasons are the exact messages
asserted by the staged tests). -/
def checkVotingAllowed (c : VotingContext) (isYesVote : Bool) : Option String :=
  if c.isAnonymous then some "Anonymous voter"
  else if !c.cfgLinked then some "No link to configuration"
  else if c.ts.state == .BANNED then some "Target is banned"
  else if c.ts.state == .GLOBALLY_ALLOWLISTED then some "Target is globally allowlisted"
  else if c.missingBundleInfo then some "Missing bundle information"
  else if c.containsFlaggedBinary then some "The target contains a flagged BINARY target"
  else if c.ts.flagged && !c.canUnflagTarget then
    some "User does not have the permission to vote on flagged targets"
  else if c.ts.state == .SUSPECT && !c.canMarkMalware then
    some "User does not have the permission to vote on malware targets"
  else if !c.canVoteOnType then
    some ("User is not allowed to vote on " ++ targetTypeName c.targetType)
  else if c.bannedCertAncestor && !c.canResetTarget then some "CERTIFICATE target is Banned"
  else if !isYesVote && c.targetType == .BUNDLE then some "A BUNDLE cannot be downvoted"
  else if c.conflictingRule then some "Conflicting non-voting rule"
  else none

/-- The twelve checks in the order the spec states them, each as the
failure condition paired with its reason. -/
def checkList (c : VotingContext) (isYesVote : Bool) : List (Bool × String) :=
  [(c.isAnonymous, "Anonymous voter"),
   (!c.cfgLinked, "No link to configuration"),
   (c.ts.state == .BANNED, "Target is banned"),
   (c.ts.state == .GLOBALLY_ALLOWLISTED, "Target is globally allowlisted"),
   (c.missingBundleInfo, "Missing bundle information"),
   (c.containsFlaggedBinary, "The target contains a flagged BINARY target"),
   (c.ts.flagged && !c.canUnflagTarget,
    "User does not have the permission to vote on flagged targets"),
   (c.ts.state == .SUSPECT && !c.canMarkMalware,
    "User does not have the permission to vote on malware targets"),
   (!c.canVoteOnType, "User is not allowed to vote on " ++ targetTypeName c.targetType),
   (c.bannedCertAncestor && !c.canResetTarget, "CERTIFICATE target is Banned"),
   (!isYesVote && c.targetType == .BUNDLE, "A BUNDLE cannot be downvoted"),
   (c.conflictingRule, "Conflicting non-voting rule")]

/-- The reason of the first failing check of an ordered check list. -/
def firstFailing (l : List (Bool × String)) : Option String :=
  (l.find? (fun p => p.1)).map (fun p => p.2)

theorem firstFailing_cons (b : Bool) (r : String) (l : List (Bool × String)) :
    firstFailing ((b, r) :: l) = if b then some r else firstFailing l := by
  cases b <;> simp [firstFailing, List.find?]

theorem firstFailing_nil : firstFailing [] = none := rfl

/-- C4.  `checkVotingAllowed` returns exactly the reason of the first
failing check of the spec's ordered twelve-check list; and whenever the
first ten checks pass, a downvote on a BUNDLE-type target is rejected
with the bundle-cannot-be-downvoted reason, whatever the voter's
can_mark_malware / can_unflag_target / can_reset_target permissions
(they are arbitrary fields of the quantified context). -/
theorem check_voting_allowed_ordered (c : VotingContext) (isYesVote : Bool) :
    checkVotingAllowed c isYesVote = firstFailing (checkList c isYesVote) ∧
    (c.targetType = .BUNDLE →
      ((checkList c false).take 10).all (fun p => !p.1) = true →
      checkVotingAllowed c false = some "A BUNDLE cannot be downvoted") := by
  constructor
  · simp only [checkList, firstFailing_cons, firstFailing_nil, checkVotingAllowed]
  · intro hbundle hpass
    simp only [checkList, List.take, List.all_cons, List.all_nil, Bool.and_eq_true,
      Bool.not_eq_true'] at hpass
    obtain ⟨h1, h2, h3, h4, h5, h6, h7, h8, h9, h10, -⟩ := hpass
    simp [checkVotingAllowed, h1, h2, h3, h4, h5, h6, h7, h8, h9, h10, hbundle]

/-- The context of
test_ballot_box_check_voting_allowed_for_configuration_downvote_bundle_error:
a linked, non-anonymous voter with no permissions at all, voting on an
uploaded BUNDLE in its initial state (a conflicting rule is even
present, yet check 11 fires before check 12). -/
def downvoteBundleCtx : VotingContext :=
  { isAnonymous := false
    cfgLinked := true
    targetType := .BUNDLE
    ts := initialTargetState
    missingBundleInfo := false
    containsFlaggedBinary := false
    canUnflagTarget := false
    canMarkMalware := false
    canVoteOnType := true
    bannedCertAncestor := false
    canResetTarget := false
    conflictingRule := true }

/-- C4 witness: the downvote-bundle rejection evaluated on the concrete
context above. -/
theorem check_voting_allowed_ordered_witness :
    downvoteBundleCtx.targetType = .BUNDLE ∧
    ((checkList downvoteBundleCtx false).take 10).all (fun p => !p.1) = true ∧
    checkVotingAllowed downvoteBundleCtx false = some "A BUNDLE cannot be downvoted" :=
  ⟨by decide, by decide,
   (check_voting_allowed_ordered downvoteBundleCtx false).2 (by decide) (by decide)⟩

/-! ## Rules and conflicting-rule resolution (spec §4.3, claim C7) -/

/-- Modelled from the spec: a `Rule` row's voting-relevant fields (§3):
policy, is_voting_rule, ordered primary users and custom message (the
configuration and target are the keys under which a row is stored). -/
structure RuleRow where
  policy : Policy
  isVotingRule : Bool
  primaryUsers : List String
  customMsg : String
  deriving DecidableEq, Repr

/-- Modelled from the spec: the search order of
`conflictingNonVotingRules`, from the most general identity type toward
the most specific (§4.3: TEAM_ID/SIGNING_ID/CERTIFICATE/CDHASH are
general, BINARY is specific; the pairwise order is pinned by
test_ballot_box_team_id_conflicting_rule — TEAM_ID beats CERTIFICATE —
test_ballot_box_certificate_conflicting_rule — TEAM_ID beats
SIGNING_ID — and test_ballot_box_signing_id_conflicting_rule —
SIGNING_ID beats BINARY). -/
def searchOrder : List TargetType :=
  [.TEAM_ID, .CERTIFICATE, .SIGNING_ID, .CDHASH, .BINARY]

/-- The non-voting rules stored for the related targets of one identity
type under one configuration. -/
def nonVotingRulesAt (rulesAt : TargetType → List RuleRow) (t : TargetType) : List RuleRow :=
  (rulesAt t).filter (fun r => !r.isVotingRule)

/-- Modelled from the spec: `conflictingNonVotingRules` for one
configuration — walk the related target types from the most general to
the most specific and report the non-voting rules of the first type
that has any; a match at a more specific type is superseded by (never
reported alongside) the one at the more general ancestor (§4.3). -/
def conflictingNonVotingRules (rulesAt : TargetType → List RuleRow) : List RuleRow :=
  match searchOrder.find? (fun t => !(nonVotingRulesAt rulesAt t).isEmpty) with
  | some t => nonVotingRulesAt rulesAt t
  | none => []

/-- C7.  The conflicting-rule search runs from the most general
identity type to the most specific: whatever rules exist at any type
after `t` in the search order (in particular at the more specific
BINARY), if every type before `t` is clean and `t` has a non-voting
rule then exactly the rules of `t` are reported; the claim's example —
rules on both the BINARY and its SIGNING_ID ancestor of a METABUNDLE —
reports only the SIGNING_ID rules, and a configuration with no
non-voting rule anywhere reports no conflict. -/
theorem conflicting_non_voting_rules_search (rulesAt : TargetType → List RuleRow) :
    (∀ l₁ t l₂, searchOrder = l₁ ++ t :: l₂ →
      (∀ t' ∈ l₁, nonVotingRulesAt rulesAt t' = []) →
      nonVotingRulesAt rulesAt t ≠ [] →
      conflictingNonVotingRules rulesAt = nonVotingRulesAt rulesAt t) ∧
    (nonVotingRulesAt rulesAt .TEAM_ID = [] →
      nonVotingRulesAt rulesAt .CERTIFICATE = [] →
      nonVotingRulesAt rulesAt .SIGNING_ID ≠ [] →
      conflictingNonVotingRules rulesAt = nonVotingRulesAt rulesAt .SIGNING_ID) ∧
    ((∀ t, nonVotingRulesAt rulesAt t = []) → conflictingNonVotingRules rulesAt = []) := by
  have main : ∀ l₁ t l₂, searchOrder = l₁ ++ t :: l₂ →
      (∀ t' ∈ l₁, nonVotingRulesAt rulesAt t' = []) →
      nonVotingRulesAt rulesAt t ≠ [] →
      conflictingNonVotingRules rulesAt = nonVotingRulesAt rulesAt t := by
    intro l₁ t l₂ horder hclean ht
    unfold conflictingNonVotingRules
    rw [horder, List.find?_append]
    have h₁ : l₁.find? (fun t => !(nonVotingRulesAt rulesAt t).isEmpty) = none := by
      rw [List.find?_eq_none]
      intro x hx
      simp [hclean x hx]
    have h₂ : (t :: l₂).find? (fun t => !(nonVotingRulesAt rulesAt t).isEmpty) = some t := by
      rw [List.find?_cons_of_pos]
      simpa using ht
    rw [h₁, h₂]
    rfl
  refine ⟨main, ?_, ?_⟩
  · intro h1 h2 h3
    exact main [.TEAM_ID, .CERTIFICATE] .SIGNING_ID [.CDHASH, .BINARY] rfl
      (by intro t' ht'; fin_cases ht' <;> assumption) h3
  · intro hall
    unfold conflictingNonVotingRules
    have : searchOrder.find? (fun t => !(nonVotingRulesAt rulesAt t).isEmpty) = none := by
      rw [List.find?_eq_none]
      intro x hx
      simp [hall x]
    rw [this]

/-- The related non-voting rules of
test_ballot_box_signing_id_conflicting_rule: a BLOCKLIST rule on the
METABUNDLE's member BINARY and one on its SIGNING_ID ancestor. -/
def signingIdConflictScenario : TargetType → List RuleRow
  | .BINARY => [{ policy := .BLOCKLIST, isVotingRule := false, primaryUsers := [],
                  customMsg := "" }]
  | .SIGNING_ID => [{ policy := .BLOCKLIST, isVotingRule := false, primaryUsers := [],
                      customMsg := "YOLO FOMO" }]
  | _ => []

/-- C7 witness: on the concrete scenario only the SIGNING_ID rule is
reported, and an everywhere-empty rule map reports nothing. -/
theorem conflicting_non_voting_rules_search_witness :
    conflictingNonVotingRules signingIdConflictScenario =
      [{ policy := .BLOCKLIST, isVotingRule := false, primaryUsers := [],
         customMsg := "YOLO FOMO" }] ∧
    conflictingNonVotingRules (fun _ => []) = [] := by
  constructor
  · have := (conflicting_non_voting_rules_search signingIdConflictScenario).2.1
      (by decide)
      (by decide)
      (by decide)
    rw [this]
    decide
  · exact (conflicting_non_voting_rules_search (fun _ => [])).2.2 (fun _ => rfl)

/-! ## best_ballot_box (spec §4.2, claim C9) -/

/-- A candidate ballot target type is reachable when it is the voted
target's own type or some related target of that type exists. -/
def reachableBallotType (ownType : TargetType) (related : TargetType → List String)
    (t : TargetType) : Bool :=
  t == ownType || !(related t).isEmpty

/-- Modelled from the spec: `best_ballot_box(cfg)` returns the first
type, in the order declared by `cfg.default_ballot_target_types`, that
is present among the related targets or is the target's own type, and
none when no declared type is reachable (§4.2). -/
def bestBallotTargetType (cfg : Configuration) (ownType : TargetType)
    (related : TargetType → List String) : Option TargetType :=
  cfg.defaultBallotTargetTypes.find? (reachableBallotType ownType related)

/-- Modelled from the spec: the related targets of the test fixture's
BINARY file target — its certificate chain, team id, signing id and
cdhash, but not the aggregate BUNDLE/METABUNDLE forms (§4.2; the
aggregates are not reachable from a binary, as
test_ballot_box_no_best_ballot_box shows a binary resolving to none
when only METABUNDLE is declared). -/
def binaryRelatedTargets : TargetType → List String
  | .TEAM_ID => ["JQ525L2MZD"]
  | .SIGNING_ID => ["JQ525L2MZD:main"]
  | .CERTIFICATE => ["certsha256"]
  | .CDHASH => ["cdhash0"]
  | .BINARY => ["filesha256"]
  | _ => []

/-- Modelled from the spec: the related targets of the test fixture's
BUNDLE target, which aggregates the file binary and reaches the
METABUNDLE built over it (§4.2, test_ballot_box_best_ballot_box_metabundle). -/
def bundleRelatedTargets : TargetType → List String
  | .TEAM_ID => ["JQ525L2MZD"]
  | .SIGNING_ID => ["JQ525L2MZD:main"]
  | .CERTIFICATE => ["certsha256"]
  | .CDHASH => ["cdhash0"]
  | .BINARY => ["filesha256"]
  | .BUNDLE => ["bundlesha256"]
  | .METABUNDLE => ["metabundlesha256"]

/-- The configuration of the best-ballot-box tests: preference order
METABUNDLE then SIGNING_ID. -/
def bestBoxCfg : Configuration :=
  { castVotesTestCfg with id := 2, defaultBallotTargetTypes := [.METABUNDLE, .SIGNING_ID] }

/-- The configuration of test_ballot_box_no_best_ballot_box: only
METABUNDLE is declared. -/
def metabundleOnlyCfg : Configuration :=
  { castVotesTestCfg with id := 3, defaultBallotTargetTypes := [.METABUNDLE] }

/-- C9.  `best_ballot_box` returns the first type of
`cfg.default_ballot_target_types` that is reachable (none if no
declared type is), and on the staged tests' fixtures: with order
[METABUNDLE, SIGNING_ID] a binary resolves to its SIGNING_ID and a
bundle to its METABUNDLE, while with [METABUNDLE] alone a binary
resolves to none. -/
theorem best_ballot_box_first_reachable (cfg : Configuration) (ownType : TargetType)
    (related : TargetType → List String) :
    (∀ l₁ t l₂, cfg.defaultBallotTargetTypes = l₁ ++ t :: l₂ →
      (∀ t' ∈ l₁, reachableBallotType ownType related t' = false) →
      reachableBallotType ownType related t = true →
      bestBallotTargetType cfg ownType related = some t) ∧
    (bestBallotTargetType cfg ownType related = none ↔
      ∀ t ∈ cfg.defaultBallotTargetTypes, ¬ reachableBallotType ownType related t = true) ∧
    bestBallotTargetType bestBoxCfg .BINARY binaryRelatedTargets = some .SIGNING_ID ∧
    bestBallotTargetType bestBoxCfg .BUNDLE bundleRelatedTargets = some .METABUNDLE ∧
    bestBallotTargetType metabundleOnlyCfg .BINARY binaryRelatedTargets = none := by
  refine ⟨?_, ?_, by decide, by decide, by decide⟩
  · intro l₁ t l₂ horder hclean ht
    unfold bestBallotTargetType
    rw [horder, List.find?_append]
    have h₁ : l₁.find? (reachableBallotType ownType related) = none := by
      rw [List.find?_eq_none]
      intro x hx
      simp [hclean x hx]
    have h₂ : (t :: l₂).find? (reachableBallotType ownType related) = some t :=
      List.find?_cons_of_pos _ ht
    rw [h₁, h₂]
    rfl
  · unfold bestBallotTargetType
    exact List.find?_eq_none

/-- C9 witness: the first-reachable characterisation applied to the
binary fixture, whose declared list splits as [METABUNDLE] ++
SIGNING_ID :: []. -/
theorem best_ballot_box_first_reachable_witness :
    bestBoxCfg.defaultBallotTargetTypes = [.METABUNDLE] ++ .SIGNING_ID :: [] ∧
    bestBallotTargetType bestBoxCfg .BINARY binaryRelatedTargets = some .SIGNING_ID :=
  ⟨by decide,
   (best_ballot_box_first_reachable bestBoxCfg .BINARY binaryRelatedTargets).1
     [.METABUNDLE] .SIGNING_ID [] (by decide)
     (by intro t' ht'; fin_cases ht' <;> decide) (by decide)⟩

/-! ## Sorted, deduplicated usernames (spec §4.5) -/

/-- Lexicographic code-point comparison of two character lists. -/
def strLeAux : List Char → List Char → Bool
  | [], _ => true
  | _ :: _, [] => false
  | a :: as, b :: bs =>
    if a.toNat < b.toNat then true
    else if b.toNat < a.toNat then false
    else strLeAux as bs

/-- The order in which the synthesizer stores primary users. -/
def strLe (a b : String) : Bool :=
  strLeAux a.data b.data

theorem strLeAux_total : ∀ as bs : List Char, strLeAux as bs = true ∨ strLeAux bs as = true
  | [], _ => Or.inl rfl
  | _ :: _, [] => Or.inr rfl
  | a :: as, b :: bs => by
    simp only [strLeAux]
    rcases strLeAux_total as bs with ih | ih <;>
      split_ifs <;> simp_all <;> omega

theorem strLeAux_trans : ∀ as bs cs : List Char,
    strLeAux as bs = true → strLeAux bs cs = true → strLeAux as cs = true
  | [], _, _, _, _ => rfl
  | _ :: _, [], _, hab, _ => by simp [strLeAux] at hab
  | _ :: _, _ :: _, [], _, hbc => by simp [strLeAux] at hbc
  | a :: as, b :: bs, c :: cs, hab, hbc => by
    simp only [strLeAux] at hab hbc ⊢
    split_ifs at hab hbc ⊢ <;>
      first
        | rfl
        | exact strLeAux_trans as bs cs hab hbc
        | omega
        | (simp_all; omega)
        | simp_all

theorem strLe_total (a b : String) : strLe a b = true ∨ strLe b a = true :=
  strLeAux_total a.data b.data

theorem strLe_trans (a b c : String) (hab : strLe a b = true) (hbc : strLe b c = true) :
    strLe a c = true :=
  strLeAux_trans a.data b.data c.data hab hbc

/-- Insertion of a username into an already ordered list. -/
def insertSorted (s : String) : List String → List String
  | [] => [s]
  | x :: xs => if strLe s x then s :: x :: xs else x :: insertSorted s xs

/-- Insertion sort of a username list. -/
def sortStrings (l : List String) : List String :=
  l.foldr insertSorted []

/-- The synthesizer's primary-user normalisation: deduplicate, then
sort (§4.5: sorted, deduplicated usernames). -/
def sortedDedup (l : List String) : List String :=
  sortStrings l.dedup

theorem mem_insertSorted (a s : String) :
    ∀ l : List String, a ∈ insertSorted s l ↔ a = s ∨ a ∈ l
  | [] => by simp [insertSorted]
  | x :: xs => by
    simp only [insertSorted]
    split_ifs <;> simp [mem_insertSorted a s xs] <;> tauto

theorem insertSorted_perm (s : String) :
    ∀ l : List String, List.Perm (insertSorted s l) (s :: l)
  | [] => List.Perm.refl _
  | x :: xs => by
    simp only [insertSorted]
    split_ifs
    · exact List.Perm.refl _
    · exact ((insertSorted_perm s xs).cons x).trans (List.Perm.swap s x xs)

theorem sortStrings_perm : ∀ l : List String, List.Perm (sortStrings l) l
  | [] => List.Perm.refl _
  | x :: xs =>
    (insertSorted_perm x (sortStrings xs)).trans ((sortStrings_perm xs).cons x)

/-- Sortedness of a username list. -/
def StrSorted (l : List String) : Prop :=
  l.Pairwise (fun a b => strLe a b = true)

theorem insertSorted_sorted (s : String) :
    ∀ l : List String, StrSorted l → StrSorted (insertSorted s l)
  | [], _ => by simp [insertSorted, StrSorted]
  | x :: xs, h => by
    simp only [insertSorted]
    have hx := (List.pairwise_cons.mp h).1
    have hxs := (List.pairwise_cons.mp h).2
    split_ifs with hsx
    · refine List.Pairwise.cons ?_ h
      intro y hy
      rcases List.mem_cons.mp hy with rfl | hy
      · exact hsx
      · exact strLe_trans s x y hsx (hx y hy)
    · have hxlt : strLe x s = true := by
        rcases strLe_total s x with hc | hc
        · exact absurd hc hsx
        · exact hc
      refine List.Pairwise.cons ?_ (insertSorted_sorted s xs hxs)
      intro y hy
      rcases (mem_insertSorted y s xs).mp hy with rfl | hy
      · exact hxlt
      · exact hx y hy

theorem sortStrings_sorted : ∀ l : List String, StrSorted (sortStrings l)
  | [] => List.Pairwise.nil
  | x :: xs => insertSorted_sorted x (sortStrings xs) (sortStrings_sorted xs)

theorem sortedDedup_sorted (l : List String) : StrSorted (sortedDedup l) :=
  sortStrings_sorted l.dedup

theorem sortedDedup_nodup (l : List String) : (sortedDedup l).Nodup :=
  ((sortStrings_perm l.dedup).nodup_iff).mpr l.nodup_dedup

theorem mem_sortedDedup (a : String) (l : List String) :
    a ∈ sortedDedup l ↔ a ∈ l := by
  rw [sortedDedup, (sortStrings_perm l.dedup).mem_iff, List.mem_dedup]

/-! ## Voters, ballots, votes and the per-target database (spec §3, §4.1, §4.3) -/

/-- Modelled from the spec: the capability view of a resolved voter
(§4.1): the identity's username (none for the AnonymousVoter), the
in-scope configuration ids, and the per-configuration weight,
ballot-target-type and permission queries. -/
structure Voter where
  username : Option String
  configurationIds : List Nat
  votingWeight : Nat → Int
  canVoteOnTargetType : Nat → TargetType → Bool
  canMarkMalware : Nat → Bool
  canUnflagTarget : Nat → Bool
  canResetTarget : Nat → Bool

/-- Modelled from the spec: the AnonymousVoter — every capability query
returns empty / false / zero and it is never authorized to vote (§4.1,
test_anonymous_voter). -/
def anonymousVoter : Voter :=
  { username := none
    configurationIds := []
    votingWeight := fun _ => 0
    canVoteOnTargetType := fun _ _ => false
    canMarkMalware := fun _ => false
    canUnflagTarget := fun _ => false
    canResetTarget := fun _ => false }

/-- Modelled from the spec: a `Ballot` row (§3): identifier, the
identity (by username, since matching is by username within a realm,
test_ballot_box_existing_ballot_different_realm_same_username) and the
append-only replacement link. -/
structure BallotRow where
  id : Nat
  username : String
  replacedById : Option Nat
  deriving DecidableEq, Repr

/-- Modelled from the spec: a `Vote` row (§3): ballot, configuration,
weight, direction and creation time; immutable once written. -/
structure VoteRow where
  ballotId : Nat
  cfgId : Nat
  weight : Int
  wasYesVote : Bool
  createdAt : Nat
  deriving DecidableEq, Repr

/-- Modelled from the spec: the persistent rows touched by one ballot
box, scoped to a single target: its ballots, their votes, the per
configuration `TargetState` rows (total function with the lazily
created default) and the per configuration `is_voting_rule` Rule row,
plus the id sequence and the clock. -/
structure BoxDB where
  ballots : List BallotRow
  votes : List VoteRow
  targetStates : Nat → TargetStateRow
  votingRules : Nat → Option RuleRow
  nextBallotId : Nat
  now : Nat

/-- The fresh database: no rows at all. -/
def emptyDB : BoxDB :=
  { ballots := []
    votes := []
    targetStates := fun _ => initialTargetState
    votingRules := fun _ => none
    nextBallotId := 0
    now := 0 }

/-- Modelled from the spec: a ballot box bound to one target: the
target's type, the resolved voter, the configurations by id and the
per-configuration environment facts read by `checkVotingAllowed`
(bundle upload status, flagged member binaries, banned certificate
ancestors, conflicting non-voting rules). -/
structure BallotBox where
  targetType : TargetType
  voter : Voter
  cfgs : Nat → Configuration
  missingBundleInfo : Bool
  containsFlaggedBinary : Nat → Bool
  bannedCertAncestor : Nat → Bool
  conflictingRule : Nat → Bool

/-- The voting context `checkVotingAllowed` reads for one
configuration, assembled from the box and the current rows. -/
def mkVotingContext (bb : BallotBox) (db : BoxDB) (cfgId : Nat) : VotingContext :=
  { isAnonymous := bb.voter.username.isNone
    cfgLinked := bb.voter.configurationIds.contains cfgId
    targetType := bb.targetType
    ts := db.targetStates cfgId
    missingBundleInfo := bb.missingBundleInfo
    containsFlaggedBinary := bb.containsFlaggedBinary cfgId
    canUnflagTarget := bb.voter.canUnflagTarget cfgId
    canMarkMalware := bb.voter.canMarkMalware cfgId
    canVoteOnType := bb.voter.canVoteOnTargetType cfgId bb.targetType
    bannedCertAncestor := bb.bannedCertAncestor cfgId
    canResetTarget := bb.voter.canResetTarget cfgId
    conflictingRule := bb.conflictingRule cfgId }

/-- The signed weight a vote contributes to the score. -/
def signedWeight (v : VoteRow) : Int :=
  if v.wasYesVote then v.weight else -v.weight

/-- Whether a creation time is after the latest reset. -/
def afterReset (resetAt : Option Nat) (t : Nat) : Bool :=
  match resetAt with
  | none => true
  | some r => r < t

/-- Whether the ballot with the given id is current (not superseded). -/
def ballotIsCurrent (db : BoxDB) (bid : Nat) : Bool :=
  match db.ballots.find? (fun b => b.id == bid) with
  | some b => b.replacedById.isNone
  | none => false

/-- Whether a vote row contributes to the score of a configuration: it
belongs to this configuration, was created after the latest reset, and
its ballot is still current. -/
def countsForScore (db : BoxDB) (cfgId : Nat) (v : VoteRow) : Bool :=
  v.cfgId == cfgId && afterReset (db.targetStates cfgId).resetAt v.createdAt &&
    ballotIsCurrent db v.ballotId

/-- Modelled from the spec: the aggregated score of one configuration —
the sum of the signed weights of the contributing votes (§3 invariant,
restricted to current ballots as test_ballot_box_update_target_state_to_suspect_to_untrusted
requires: a replaced ballot's votes no longer count). -/
def currentScore (db : BoxDB) (cfgId : Nat) : Int :=
  ((db.votes.filter (countsForScore db cfgId)).map signedWeight).sum

/-- The score exactly as claim C2 words it: the sum over all vote rows
after the latest reset, including votes of ballots that were later
replaced. -/
def allVotesScore (db : BoxDB) (cfgId : Nat) : Int :=
  ((db.votes.filter (fun v =>
      v.cfgId == cfgId && afterReset (db.targetStates cfgId).resetAt v.createdAt)).map
    signedWeight).sum

/-- The current (non-superseded) ballot of a username, found among the
target's ballots (§4.3 existingBallot). -/
def currentBallotFor (db : BoxDB) (u : String) : Option BallotRow :=
  db.ballots.find? (fun b => b.username == u && b.replacedById.isNone)

/-- Modelled from the spec: `existingBallot` — none for the anonymous
voter, otherwise the current ballot of the voter's username (§4.3). -/
def existingBallot (bb : BallotBox) (db : BoxDB) : Option BallotRow :=
  match bb.voter.username with
  | none => none
  | some u => currentBallotFor db u

/-- The (configuration, direction) pairs of a ballot's votes that are
not older than the configuration's latest reset (§4.3 existingVotes). -/
def unexpiredVotesOf (db : BoxDB) (b : BallotRow) : List (Nat × Bool) :=
  (db.votes.filter (fun v =>
      v.ballotId == b.id && afterReset (db.targetStates v.cfgId).resetAt v.createdAt)).map
    (fun v => (v.cfgId, v.wasYesVote))

/-- Modelled from the spec: `existingVotes` — the unexpired
(configuration, direction) pairs of the existing ballot, empty when
there is none (§4.3). -/
def existingVotes (bb : BallotBox) (db : BoxDB) : List (Nat × Bool) :=
  match existingBallot bb db with
  | none => []
  | some b => unexpiredVotesOf db b

/-- Set equality of two (configuration, direction) collections. -/
def sameVoteSet (l₁ l₂ : List (Nat × Bool)) : Bool :=
  l₁.all (fun p => l₂.contains p) && l₂.all (fun p => l₁.contains p)

/-- The error taxonomy of the engine (§7). -/
inductive VError
  | votingError (msg : String)
  | votingNotAllowedError (cfgId : Nat) (isYesVote : Bool)
  | duplicateVoteError
  | resetNotAllowedError
  deriving DecidableEq, Repr

/-- The vote row written for one submitted (configuration, direction)
pair: the voter's per-configuration weight, stamped with the current
time. -/
def mkVoteRow (bb : BallotBox) (db : BoxDB) (newId : Nat) (p : Nat × Bool) : VoteRow :=
  { ballotId := newId
    cfgId := p.1
    weight := bb.voter.votingWeight p.1
    wasYesVote := p.2
    createdAt := db.now }

/-- Marking the prior current ballot as replaced by the new one. -/
def supersede (oldId newId : Nat) (b : BallotRow) : BallotRow :=
  if b.id = oldId then { b with replacedById := some newId } else b

/-- Modelled from the spec: `_createOrUpdateBallot` (§4.3) — fail with
DuplicateVoteError when the identity's current ballot has an identical
unexpired vote set; otherwise append a new ballot with one vote per
submitted (configuration, direction) at the voter's weight, linking any
prior current ballot to it via replaced_by without deleting it. -/
def createOrUpdateBallot (bb : BallotBox) (u : String) (votes : List (Nat × Bool))
    (db : BoxDB) : Except VError (BoxDB × Nat) :=
  let newId := db.nextBallotId
  match currentBallotFor db u with
  | some b =>
    if sameVoteSet (unexpiredVotesOf db b) votes then .error .duplicateVoteError
    else .ok ({ db with
        ballots := (db.ballots.map (supersede b.id newId)) ++ [⟨newId, u, none⟩]
        votes := db.votes ++ votes.map (mkVoteRow bb db newId)
        nextBallotId := newId + 1
        now := db.now + 1 }, newId)
  | none =>
    .ok ({ db with
        ballots := db.ballots ++ [⟨newId, u, none⟩]
        votes := db.votes ++ votes.map (mkVoteRow bb db newId)
        nextBallotId := newId + 1
        now := db.now + 1 }, newId)

/-! ## Rule synthesizer (spec §4.5, claim C3) -/

/-- Whether a current ballot holds an unexpired yes vote on the
configuration. -/
def hasYesVote (db : BoxDB) (cfgId : Nat) (b : BallotRow) : Bool :=
  db.votes.any (fun v =>
    v.ballotId == b.id && v.cfgId == cfgId && v.wasYesVote &&
      afterReset (db.targetStates cfgId).resetAt v.createdAt)

/-- Usernames of every voter whose current unexpired vote on the
configuration was yes (§4.5). -/
def yesVoters (db : BoxDB) (cfgId : Nat) : List String :=
  (db.ballots.filter (fun b => b.replacedById.isNone && hasYesVote db cfgId b)).map
    (fun b => b.username)

/-- Modelled from the spec: the desired `is_voting_rule` row for a
state (§4.5): ALLOWLIST with the sorted deduplicated yes voters for
PARTIALLY_ALLOWLISTED; ALLOWLIST with no primary users for
GLOBALLY_ALLOWLISTED — the staged test
(test_ballot_box_update_target_state_to_partially_allowlisted_to_globally_allowlisted,
lines 819-841) shows the globally-allowlisted rule is stored with
empty primary_users, the former voters all removed from the rule;
BLOCKLIST with no primary users for BANNED; none otherwise. -/
def desiredRule (st : TState) (yv : List String) : Option RuleRow :=
  match st with
  | .PARTIALLY_ALLOWLISTED =>
    some { policy := .ALLOWLIST, isVotingRule := true, primaryUsers := sortedDedup yv,
           customMsg := "" }
  | .GLOBALLY_ALLOWLISTED =>
    some { policy := .ALLOWLIST, isVotingRule := true, primaryUsers := [], customMsg := "" }
  | .BANNED =>
    some { policy := .BLOCKLIST, isVotingRule := true, primaryUsers := [], customMsg := "" }
  | _ => none

/-- The changed-field diff carried by a rule-update "updated" event:
an added / removed entry per field, present only when the field
changed (§4.5). -/
structure RuleUpdates where
  policyAdded : Option Policy
  policyRemoved : Option Policy
  usersAdded : List String
  usersRemoved : List String
  customMsgAdded : Option String
  customMsgRemoved : Option String
  deriving DecidableEq, Repr

/-- Modelled from the spec: the diff of the stored rule against the
desired one, carrying only the changed fields (§4.5, and the
added/removed payloads of
test_ballot_box_update_target_state_to_partially_allowlisted_to_globally_allowlisted). -/
def ruleDiff (old new : RuleRow) : RuleUpdates :=
  { policyAdded := if old.policy = new.policy then none else some new.policy
    policyRemoved := if old.policy = new.policy then none else some old.policy
    usersAdded := new.primaryUsers.filter (fun x => !old.primaryUsers.contains x)
    usersRemoved := old.primaryUsers.filter (fun x => !new.primaryUsers.contains x)
    customMsgAdded := if old.customMsg = new.customMsg then none else some new.customMsg
    customMsgRemoved := if old.customMsg = new.customMsg then none else some old.customMsg }

/-- A rule-update event: created / updated / deleted with the rule
snapshot, the updated kind carrying the changed-field diff. -/
inductive RuleEvent
  | created (r : RuleRow)
  | updated (r : RuleRow) (u : RuleUpdates)
  | deleted (r : RuleRow)
  deriving DecidableEq, Repr

/-- Modelled from the spec: reconciliation of the stored
`is_voting_rule` row against the desired one — store the desired row
whatever was there, and emit created / updated / deleted when something
changed (§4.5). -/
def syncRule (stored desired : Option RuleRow) : Option RuleRow × Option RuleEvent :=
  match stored, desired with
  | none, none => (none, none)
  | none, some d => (some d, some (.created d))
  | some s, none => (none, some (.deleted s))
  | some s, some d =>
    if s = d then (some d, none) else (some d, some (.updated d (ruleDiff s d)))

/-- Domain events buffered by one call (§6). -/
inductive BoxEvent
  | ballotCast (ballotId : Nat)
  | targetStateUpdate (cfgId : Nat) (prev next : TargetStateRow)
  | ruleUpdate (cfgId : Nat) (e : RuleEvent)
  deriving DecidableEq, Repr

/-- Pointwise update of the target-state table. -/
def setTargetState (db : BoxDB) (cfgId : Nat) (ts : TargetStateRow) : BoxDB :=
  { db with targetStates := fun c => if c = cfgId then ts else db.targetStates c }

/-- Pointwise update of the voting-rule table. -/
def setVotingRule (db : BoxDB) (cfgId : Nat) (r : Option RuleRow) : BoxDB :=
  { db with votingRules := fun c => if c = cfgId then r else db.votingRules c }

/-- The target-state row one update stores for a configuration: the
recomputed score, the §4.4 state and flagged bits, the reset time kept. -/
def nextOf (bb : BallotBox) (db : BoxDB) (cfgId : Nat) : TargetStateRow :=
  { score := currentScore db cfgId
    state := computeState (bb.cfgs cfgId) (bb.voter.canMarkMalware cfgId)
      (currentScore db cfgId)
    flagged := computeFlagged (currentScore db cfgId)
    resetAt := (db.targetStates cfgId).resetAt }

/-- Modelled from the spec: `_updateTargetState` for one configuration
(§4.3): capture the previous snapshot, recompute the score from the
contributing votes, recompute state and flagged through §4.4, store
the row, run the rule synthesizer, and emit a target-state-update
event only if an observable field changed, plus the synthesizer's rule
event. -/
def updateTargetStateCfg (bb : BallotBox) (db : BoxDB) (cfgId : Nat) :
    BoxDB × List BoxEvent :=
  let prev := db.targetStates cfgId
  let next := nextOf bb db cfgId
  let db1 := setTargetState db cfgId next
  let sync := syncRule (db1.votingRules cfgId) (desiredRule next.state (yesVoters db1 cfgId))
  let db2 := setVotingRule db1 cfgId sync.1
  (db2,
    (if next = prev then [] else [.targetStateUpdate cfgId prev next]) ++
      (match sync.2 with
       | some e => [.ruleUpdate cfgId e]
       | none => []))

/-- Modelled from the spec: `_updateTargetStates` — run the
per-configuration update for each submitted vote, in order (§4.3). -/
def updateTargetStates (bb : BallotBox) (db : BoxDB) (votes : List (Nat × Bool)) :
    BoxDB × List BoxEvent :=
  votes.foldl
    (fun acc p =>
      let r := updateTargetStateCfg bb acc.1 p.1
      (r.1, acc.2 ++ r.2))
    (db, [])

/-! ## castVotes and resetTargetState (spec §4.3, §5, §7) -/

/-- Modelled from the spec: `castVotes` (§4.3) — VotingError for an
anonymous voter ("Anonymous voters cannot vote",
test_ballot_box_cast_votes_anonymous_voter) or an empty vote list
("No votes"), VotingNotAllowedError naming configuration and direction
at the first entry rejected by checkVotingAllowed, then ballot
creation, target-state updates and rule reconciliation, returning the
buffered events. -/
def castVotes (bb : BallotBox) (db : BoxDB) (votes : List (Nat × Bool)) :
    Except VError (BoxDB × List BoxEvent) :=
  match bb.voter.username with
  | none => .error (.votingError "Anonymous voters cannot vote")
  | some u =>
    if votes.isEmpty then .error (.votingError "No votes")
    else
      match votes.find? (fun p => (checkVotingAllowed (mkVotingContext bb db p.1) p.2).isSome) with
      | some p => .error (.votingNotAllowedError p.1 p.2)
      | none =>
        match createOrUpdateBallot bb u votes db with
        | .error e => .error e
        | .ok (db1, newId) =>
          let upd := updateTargetStates bb db1 votes
          .ok (upd.1, .ballotCast newId :: upd.2)

/-- Modelled from the spec: `resetTargetState(cfg)` (§4.3) —
ResetNotAllowedError unless the voter can reset; otherwise score 0,
state UNTRUSTED, flagged false, reset_at now, the voting rule deleted,
vote rows retained, with a target-state-update event and a rule-update
deleted event when a rule existed. -/
def resetTargetState (bb : BallotBox) (db : BoxDB) (cfgId : Nat) :
    Except VError (BoxDB × List BoxEvent) :=
  if bb.voter.canResetTarget cfgId = true then
    let prev := db.targetStates cfgId
    let next : TargetStateRow :=
      { score := 0, state := .UNTRUSTED, flagged := false, resetAt := some db.now }
    let stored := db.votingRules cfgId
    let db1 := setVotingRule (setTargetState db cfgId next) cfgId none
    let db2 := { db1 with now := db1.now + 1 }
    .ok (db2,
      [.targetStateUpdate cfgId prev next] ++
        (match stored with
         | some r => [.ruleUpdate cfgId (.deleted r)]
         | none => []))
  else .error .resetNotAllowedError

/-- The transactional wrapper of §5: an error rolls the whole write
back, so the caller keeps the unchanged database and no event is
published. -/
def runCast (bb : BallotBox) (db : BoxDB) (votes : List (Nat × Bool)) :
    BoxDB × Option VError × List BoxEvent :=
  match castVotes bb db votes with
  | .ok r => (r.1, none, r.2)
  | .error e => (db, some e, [])

/-- The transactional wrapper of §5 for the reset operation. -/
def runReset (bb : BallotBox) (db : BoxDB) (cfgId : Nat) :
    BoxDB × Option VError × List BoxEvent :=
  match resetTargetState bb db cfgId with
  | .ok r => (r.1, none, r.2)
  | .error e => (db, some e, [])

/-- One operation of a voting history on the target. -/
inductive Op
  | cast (bb : BallotBox) (votes : List (Nat × Bool))
  | reset (bb : BallotBox) (cfgId : Nat)

/-- Running one operation (a failed operation leaves the rows
unchanged, §5/§7). -/
def applyOp (db : BoxDB) (op : Op) : BoxDB :=
  match op with
  | .cast bb votes => (runCast bb db votes).1
  | .reset bb c => (runReset bb db c).1

/-- Running a history of operations from the fresh database. -/
def runOps (db : BoxDB) (ops : List Op) : BoxDB :=
  ops.foldl applyOp db

/-- Whether an operation addresses the given configuration. -/
def opTouches (c : Nat) : Op → Prop
  | .cast _ votes => c ∈ votes.map Prod.fst
  | .reset _ c' => c' = c

/-! ## Concrete fixtures used by witnesses -/

/-- A ballot box for an anonymous visitor. -/
def anonBox : BallotBox :=
  { targetType := .BINARY
    voter := anonymousVoter
    cfgs := fun _ => castVotesTestCfg
    missingBundleInfo := false
    containsFlaggedBinary := fun _ => false
    bannedCertAncestor := fun _ => false
    conflictingRule := fun _ => false }

/-- A fully-permitted voter called alice, linked to configuration 1
with voting weight 3 everywhere. -/
def aliceVoter : Voter :=
  { username := some "alice"
    configurationIds := [1]
    votingWeight := fun _ => 3
    canVoteOnTargetType := fun _ _ => true
    canMarkMalware := fun _ => true
    canUnflagTarget := fun _ => true
    canResetTarget := fun _ => true }

/-- The thresholds of test_ballot_box_partially_allowlist_post_reset:
partially allowlisted at 2, weight 3. -/
def smallCfg : Configuration :=
  { id := 1
    defaultBallotTargetTypes := [.BINARY]
    defaultVotingWeight := 3
    partiallyAllowlistedThreshold := 2
    globallyAllowlistedThreshold := 50
    bannedThreshold := -26 }

/-- Alice's ballot box on a clean binary target under `smallCfg`. -/
def aliceBox : BallotBox :=
  { targetType := .BINARY
    voter := aliceVoter
    cfgs := fun _ => smallCfg
    missingBundleInfo := false
    containsFlaggedBinary := fun _ => false
    bannedCertAncestor := fun _ => false
    conflictingRule := fun _ => false }

/-- A database holding a banned state and a stored BLOCKLIST voting
rule under configuration 1 (the situation of Scenario C before the
reset of Scenario D). -/
def bannedDB : BoxDB :=
  { emptyDB with
    targetStates := fun c =>
      if c = 1 then { score := -50, state := .BANNED, flagged := true, resetAt := none }
      else initialTargetState
    votingRules := fun c =>
      if c = 1 then
        some { policy := .BLOCKLIST, isVotingRule := true, primaryUsers := [], customMsg := "" }
      else none }

/-! ## Claim C10: anonymous ballot box -/

/-- C10.  With no identity the existing ballot is none, the existing
vote set is empty, and castVotes on the empty list still fails with the
anonymous-voter message — the anonymity check runs before the
empty-list check. -/
theorem anonymous_ballot_box_behaviour (bb : BallotBox) (db : BoxDB)
    (h : bb.voter.username = none) :
    existingBallot bb db = none ∧
    existingVotes bb db = [] ∧
    castVotes bb db [] = .error (.votingError "Anonymous voters cannot vote") := by
  refine ⟨?_, ?_, ?_⟩ <;> simp [existingBallot, existingVotes, castVotes, h]

/-- C10 witness: the anonymous box over the fresh database. -/
theorem anonymous_ballot_box_behaviour_witness :
    anonBox.voter.username = none ∧
    existingBallot anonBox emptyDB = none ∧
    existingVotes anonBox emptyDB = [] ∧
    castVotes anonBox emptyDB [] = .error (.votingError "Anonymous voters cannot vote") :=
  ⟨rfl,
   (anonymous_ballot_box_behaviour anonBox emptyDB rfl).1,
   (anonymous_ballot_box_behaviour anonBox emptyDB rfl).2.1,
   (anonymous_ballot_box_behaviour anonBox emptyDB rfl).2.2⟩

/-! ## Claim C8: castVotes error handling -/

/-- C8.  castVotes fails with VotingError "Anonymous voters cannot
vote" for an anonymous voter and "No votes" for an empty list, fails
with VotingNotAllowedError naming the configuration and the direction
of the first submitted entry rejected by checkVotingAllowed, and on
every failure the transaction leaves the database unchanged and emits
no event. -/
theorem cast_votes_error_handling (bb : BallotBox) (db : BoxDB)
    (votes : List (Nat × Bool)) :
    (bb.voter.username = none →
      runCast bb db votes = (db, some (.votingError "Anonymous voters cannot vote"), [])) ∧
    (∀ u, bb.voter.username = some u → votes = [] →
      runCast bb db votes = (db, some (.votingError "No votes"), [])) ∧
    (∀ u p, bb.voter.username = some u →
      votes.find? (fun q => (checkVotingAllowed (mkVotingContext bb db q.1) q.2).isSome) =
        some p →
      runCast bb db votes = (db, some (.votingNotAllowedError p.1 p.2), [])) ∧
    (∀ e, castVotes bb db votes = .error e → runCast bb db votes = (db, some e, [])) := by
  refine ⟨?_, ?_, ?_, ?_⟩
  · intro h
    simp [runCast, castVotes, h]
  · intro u hu hv
    subst hv
    simp [runCast, castVotes, hu]
  · intro u p hu hfind
    have hne : votes.isEmpty = false := by
      cases votes with
      | nil => simp at hfind
      | cons q qs => rfl
    simp [runCast, castVotes, hu, hne, hfind]
  · intro e h
    simp [runCast, h]

/-- C8 witness: alice votes on configuration 99, to which she has no
link; the first (and only) entry is rejected, the error names the
configuration and the direction, and the database and event list are
untouched. -/
theorem cast_votes_error_handling_witness :
    aliceBox.voter.username = some "alice" ∧
    [((99 : Nat), true)].find?
      (fun q => (checkVotingAllowed (mkVotingContext aliceBox emptyDB q.1) q.2).isSome) =
      some (99, true) ∧
    runCast aliceBox emptyDB [(99, true)] =
      (emptyDB, some (.votingNotAllowedError 99 true), []) :=
  ⟨rfl, by decide,
   (cast_votes_error_handling aliceBox emptyDB [(99, true)]).2.2.1 "alice" (99, true) rfl
     (by decide)⟩

/-! ## Claim C5: resetTargetState -/

/-- C5.  resetTargetState fails with ResetNotAllowedError and changes
nothing when the voter cannot reset the configuration; otherwise it
stores score 0, state UNTRUSTED, flagged false and reset_at = now,
deletes the voting rule, retains every ballot and vote row and the
other configurations' rows, and emits a target-state-update event
followed by a rule-update deleted event exactly when a rule was
stored. -/
theorem reset_target_state_spec (bb : BallotBox) (db : BoxDB) (cfgId : Nat) :
    (bb.voter.canResetTarget cfgId = false →
      runReset bb db cfgId = (db, some .resetNotAllowedError, [])) ∧
    (bb.voter.canResetTarget cfgId = true →
      ∀ db' err evs, runReset bb db cfgId = (db', err, evs) →
        err = none ∧
        db'.targetStates cfgId =
          { score := 0, state := .UNTRUSTED, flagged := false, resetAt := some db.now } ∧
        db'.votingRules cfgId = none ∧
        db'.votes = db.votes ∧
        db'.ballots = db.ballots ∧
        (∀ c, c ≠ cfgId →
          db'.targetStates c = db.targetStates c ∧ db'.votingRules c = db.votingRules c) ∧
        evs = .targetStateUpdate cfgId (db.targetStates cfgId)
                { score := 0, state := .UNTRUSTED, flagged := false, resetAt := some db.now } ::
              (match db.votingRules cfgId with
               | some r => [.ruleUpdate cfgId (.deleted r)]
               | none => [])) := by
  constructor
  · intro h
    simp [runReset, resetTargetState, h]
  · intro h db' err evs heq
    rw [runReset, resetTargetState] at heq
    simp only [h, if_pos rfl, if_true] at heq
    cases heq
    refine ⟨rfl, ?_, ?_, rfl, rfl, ?_, rfl⟩
    · simp [setVotingRule, setTargetState]
    · simp [setVotingRule, setTargetState]
    · intro c hc
      simp [setVotingRule, setTargetState, hc]

/-- C5 witness: alice resets the banned configuration 1 of `bannedDB`;
the state is cleared, the stored BLOCKLIST rule is deleted and both
events are emitted. -/
theorem reset_target_state_spec_witness :
    aliceBox.voter.canResetTarget 1 = true ∧
    (runReset aliceBox bannedDB 1).2.1 = none ∧
    (runReset aliceBox bannedDB 1).1.votingRules 1 = none ∧
    (runReset aliceBox bannedDB 1).1.targetStates 1 =
      { score := 0, state := .UNTRUSTED, flagged := false, resetAt := some bannedDB.now } ∧
    (runReset aliceBox bannedDB 1).1.votes = bannedDB.votes :=
  let h := (reset_target_state_spec aliceBox bannedDB 1).2 rfl
    (runReset aliceBox bannedDB 1).1 (runReset aliceBox bannedDB 1).2.1
    (runReset aliceBox bannedDB 1).2.2 rfl
  ⟨rfl, h.1, h.2.2.1, h.2.1, h.2.2.2.1⟩

/-! ## Claim C6: _createOrUpdateBallot -/

/-- The current (non-superseded) ballots a username holds on the
target; the data-model invariant says there is at most one. -/
def currentBallotsFor (db : BoxDB) (u : String) : List BallotRow :=
  db.ballots.filter (fun b => b.username == u && b.replacedById.isNone)

theorem filter_current_map_supersede (u : String) (oldId newId : Nat)
    (l : List BallotRow) :
    (l.map (supersede oldId newId)).filter
        (fun b => b.username == u && b.replacedById.isNone) =
      l.filter (fun b => (b.username == u && b.replacedById.isNone) && !(b.id == oldId)) := by
  induction l with
  | nil => rfl
  | cons x xs ih =>
    simp only [List.map_cons, List.filter_cons]
    by_cases hid : x.id = oldId
    · simp [supersede, hid, ih]
    · have hb : (x.id == oldId) = false := beq_eq_false_iff_ne.mpr hid
      simp [supersede, hid, hb, ih]

theorem filter_fst_eq_of_nodup (votes : List (Nat × Bool)) (p : Nat × Bool)
    (hnd : (votes.map Prod.fst).Nodup) (hp : p ∈ votes) :
    votes.filter (fun q => q.1 == p.1) = [p] := by
  induction votes with
  | nil => cases hp
  | cons q qs ih =>
    simp only [List.map_cons, List.nodup_cons] at hnd
    rcases List.mem_cons.mp hp with rfl | hp'
    · simp only [List.filter_cons, beq_self_eq_true, if_true]
      have hqs : qs.filter (fun r => r.1 == p.1) = [] := by
        rw [List.filter_eq_nil_iff]
        intro r hr
        simp only [beq_iff_eq]
        intro hre
        exact hnd.1 (hre ▸ List.mem_map_of_mem Prod.fst hr)
      rw [hqs]
    · have hq : (q.1 == p.1) = false := by
        rw [beq_eq_false_iff_ne]
        intro h
        exact hnd.1 (h ▸ List.mem_map_of_mem Prod.fst hp')
      simp only [List.filter_cons, hq, if_false, Bool.false_eq_true, ite_false]
      exact ih hnd.2 hp'

theorem currentBallotFor_mem {db : BoxDB} {u : String} {b0 : BallotRow}
    (h : currentBallotFor db u = some b0) : b0 ∈ db.ballots := by
  rw [currentBallotFor] at h
  exact List.mem_of_find?_eq_some h

theorem currentBallotFor_mem_filter {db : BoxDB} {u : String} {b0 : BallotRow}
    (h : currentBallotFor db u = some b0) : b0 ∈ currentBallotsFor db u := by
  rw [currentBallotFor] at h
  have hp := @List.find?_some BallotRow
    (fun b => b.username == u && b.replacedById.isNone) b0 db.ballots h
  rw [currentBallotsFor, List.mem_filter]
  exact ⟨List.mem_of_find?_eq_some h, hp⟩

theorem length_le_one_mem_eq {α : Type} {l : List α} {x : α}
    (hlen : l.length ≤ 1) (hx : x ∈ l) : l = [x] := by
  cases l with
  | nil => cases hx
  | cons a as =>
    cases as with
    | nil =>
      rcases List.mem_singleton.mp hx with rfl
      rfl
    | cons b bs => simp at hlen

/-- C6.  `_createOrUpdateBallot` fails with DuplicateVoteError exactly
when the identity's current ballot exists and its unexpired vote set
equals the submitted set; otherwise it returns the fresh ballot id,
appends one vote row per submitted (configuration, direction) at the
voter's per-configuration weight (exactly one per entry when the
submitted configurations are distinct and the old vote rows reference
older ballots), keeps every old ballot row while adding exactly one,
links the prior current ballot to the new one via replaced_by, and
preserves the at-most-one-current-ballot-per-user invariant. -/
theorem create_or_update_ballot_spec (bb : BallotBox) (u : String)
    (votes : List (Nat × Bool)) (db : BoxDB) :
    (createOrUpdateBallot bb u votes db = .error .duplicateVoteError ↔
      ∃ b, currentBallotFor db u = some b ∧
        sameVoteSet (unexpiredVotesOf db b) votes = true) ∧
    (∀ db' newId, createOrUpdateBallot bb u votes db = .ok (db', newId) →
      newId = db.nextBallotId ∧
      db'.votes = db.votes ++ votes.map (mkVoteRow bb db db.nextBallotId) ∧
      BallotRow.mk db.nextBallotId u none ∈ db'.ballots ∧
      db'.ballots.length = db.ballots.length + 1 ∧
      ((∀ v ∈ db.votes, v.ballotId < db.nextBallotId) →
        (votes.map Prod.fst).Nodup →
        ∀ p ∈ votes,
          db'.votes.filter (fun v => v.ballotId == db.nextBallotId && v.cfgId == p.1) =
            [mkVoteRow bb db db.nextBallotId p]) ∧
      (∀ b0, currentBallotFor db u = some b0 →
        { b0 with replacedById := some db.nextBallotId } ∈ db'.ballots) ∧
      ((∀ u', (currentBallotsFor db u').length ≤ 1) →
        ∀ u', (currentBallotsFor db' u').length ≤ 1)) := by
  have votes_shape : ∀ db' newId, createOrUpdateBallot bb u votes db = .ok (db', newId) →
      newId = db.nextBallotId ∧
      db'.votes = db.votes ++ votes.map (mkVoteRow bb db db.nextBallotId) ∧
      (db'.ballots = db.ballots ++ [⟨db.nextBallotId, u, none⟩] ∧ currentBallotFor db u = none ∨
       ∃ b0, currentBallotFor db u = some b0 ∧
         db'.ballots = (db.ballots.map (supersede b0.id db.nextBallotId)) ++
           [⟨db.nextBallotId, u, none⟩]) := by
    intro db' newId heq
    rw [createOrUpdateBallot] at heq
    rcases hcur : currentBallotFor db u with _ | b0 <;> simp only [hcur] at heq
    · cases heq
      exact ⟨rfl, rfl, Or.inl ⟨rfl, rfl⟩⟩
    · split_ifs at heq with hsame
      cases heq
      exact ⟨rfl, rfl, Or.inr ⟨b0, rfl, rfl⟩⟩
  constructor
  · constructor
    · intro herr
      rw [createOrUpdateBallot] at herr
      rcases hcur : currentBallotFor db u with _ | b0 <;> simp only [hcur] at herr
      · cases herr
      · split_ifs at herr with hsame
        exact ⟨b0, rfl, hsame⟩
    · rintro ⟨b0, hcur, hsame⟩
      simp [createOrUpdateBallot, hcur, hsame]
  · intro db' newId heq
    obtain ⟨hid, hvotes, hballots⟩ := votes_shape db' newId heq
    have hnewmem : BallotRow.mk db.nextBallotId u none ∈ db'.ballots := by
      rcases hballots with ⟨hb, -⟩ | ⟨b0, -, hb⟩ <;> rw [hb] <;>
        exact List.mem_append_right _ (List.mem_singleton.mpr rfl)
    have hlen : db'.ballots.length = db.ballots.length + 1 := by
      rcases hballots with ⟨hb, -⟩ | ⟨b0, -, hb⟩ <;> rw [hb] <;>
        simp [List.length_append, List.length_map]
    refine ⟨hid, hvotes, hnewmem, hlen, ?_, ?_, ?_⟩
    · intro hold hnd p hp
      rw [hvotes, List.filter_append]
      have h1 : db.votes.filter
          (fun v => v.ballotId == db.nextBallotId && v.cfgId == p.1) = [] := by
        rw [List.filter_eq_nil_iff]
        intro v hv
        have := hold v hv
        simp only [Bool.and_eq_true, beq_iff_eq]
        rintro ⟨h, -⟩
        omega
      have h2 : (votes.map (mkVoteRow bb db db.nextBallotId)).filter
          (fun v => v.ballotId == db.nextBallotId && v.cfgId == p.1) =
          [mkVoteRow bb db db.nextBallotId p] := by
        rw [List.filter_map]
        have hcongr : votes.filter
            ((fun v => v.ballotId == db.nextBallotId && v.cfgId == p.1) ∘
              mkVoteRow bb db db.nextBallotId) =
            votes.filter (fun q => q.1 == p.1) := by
          apply List.filter_congr
          intro q hq
          simp [mkVoteRow]
        rw [hcongr, filter_fst_eq_of_nodup votes p hnd hp]
        rfl
      rw [h1, h2, List.nil_append]
    · intro b0 hcur
      rcases hballots with ⟨-, hnone⟩ | ⟨b1, hsome, hb⟩
      · rw [hcur] at hnone
        cases hnone
      · rw [hcur] at hsome
        injection hsome with hsome
        subst hsome
        rw [hb]
        refine List.mem_append_left _ ?_
        have hb0mem : b0 ∈ db.ballots := currentBallotFor_mem hcur
        have : supersede b0.id db.nextBallotId b0 =
            { b0 with replacedById := some db.nextBallotId } := by
          simp [supersede]
        exact this ▸ List.mem_map_of_mem (supersede b0.id db.nextBallotId) hb0mem
    · intro hinv u'
      rcases hballots with ⟨hb, hnone⟩ | ⟨b0, hsome, hb⟩
      · rw [currentBallotsFor, hb, List.filter_append]
        by_cases hu : u = u'
        · subst hu
          have hfe : db.ballots.filter
              (fun b => b.username == u && b.replacedById.isNone) = [] := by
            rw [List.filter_eq_nil_iff]
            intro b hbmem hbp
            have : currentBallotFor db u ≠ none := by
              rw [currentBallotFor, Ne, List.find?_eq_none]
              push_neg
              exact ⟨b, hbmem, hbp⟩
            exact this hnone
          rw [hfe]
          simp
        · have : List.filter (fun b => b.username == u' && b.replacedById.isNone)
              [BallotRow.mk db.nextBallotId u none] = [] := by
            simp [hu]
          rw [this, List.append_nil]
          exact hinv u'
      · rw [currentBallotsFor, hb, List.filter_append, filter_current_map_supersede]
        have hstronger : db.ballots.filter
            (fun b => (b.username == u' && b.replacedById.isNone) && !(b.id == b0.id)) =
            (currentBallotsFor db u').filter (fun b => !(b.id == b0.id)) := by
          rw [currentBallotsFor, List.filter_filter]
          apply List.filter_congr
          intro b hbmem
          rcases h1 : (b.username == u' && b.replacedById.isNone) <;>
            rcases h2 : (b.id == b0.id) <;> rfl
        rw [hstronger]
        by_cases hu : u = u'
        · subst hu
          have hb0cur : b0 ∈ currentBallotsFor db u := currentBallotFor_mem_filter hsome
          have hsingle : currentBallotsFor db u = [b0] :=
            length_le_one_mem_eq (hinv u) hb0cur
          rw [hsingle]
          simp
        · have : List.filter (fun b => b.username == u' && b.replacedById.isNone)
              [BallotRow.mk db.nextBallotId u none] = [] := by
            simp [hu]
          rw [this, List.append_nil]
          exact le_trans (List.length_filter_le _ _) (hinv u')

/-- A database where alice already has a current yes ballot on
configuration 1 (ballot 0, weight 3, cast at time 0). -/
def aliceYesDB : BoxDB :=
  { emptyDB with
    ballots := [⟨0, "alice", none⟩]
    votes := [{ ballotId := 0, cfgId := 1, weight := 3, wasYesVote := true, createdAt := 0 }]
    nextBallotId := 1
    now := 1 }

/-- C6 witness: resubmitting the identical yes vote raises
DuplicateVoteError, while submitting the opposite vote succeeds,
writes the one new vote row at alice's weight and links ballot 0 to
the new ballot 1. -/
theorem create_or_update_ballot_spec_witness :
    createOrUpdateBallot aliceBox "alice" [(1, true)] aliceYesDB =
      .error .duplicateVoteError ∧
    (createOrUpdateBallot aliceBox "alice" [(1, false)] aliceYesDB).isOk = true ∧
    (∀ db' newId,
      createOrUpdateBallot aliceBox "alice" [(1, false)] aliceYesDB = .ok (db', newId) →
      newId = 1 ∧
      { id := 0, username := "alice", replacedById := some 1 } ∈ db'.ballots ∧
      db'.votes.filter (fun v => v.ballotId == 1 && v.cfgId == 1) =
        [{ ballotId := 1, cfgId := 1, weight := 3, wasYesVote := false, createdAt := 1 }]) := by
  refine ⟨?_, by decide, ?_⟩
  · exact (create_or_update_ballot_spec aliceBox "alice" [(1, true)] aliceYesDB).1.mpr
      ⟨⟨0, "alice", none⟩, by decide, by decide⟩
  · intro db' newId heq
    have h := (create_or_update_ballot_spec aliceBox "alice" [(1, false)] aliceYesDB).2
      db' newId heq
    refine ⟨h.1, ?_, ?_⟩
    · exact h.2.2.2.2.2.1 ⟨0, "alice", none⟩ (by decide)
    · have := h.2.2.2.2.1 (by decide) (by decide) (1, false) (by decide)
      exact this

/-! ## Frame lemmas for the per-configuration update -/

theorem countsForScore_congr {db db' : BoxDB} (hballots : db'.ballots = db.ballots)
    (c : Nat) (hr : (db'.targetStates c).resetAt = (db.targetStates c).resetAt)
    (v : VoteRow) : countsForScore db' c v = countsForScore db c v := by
  unfold countsForScore ballotIsCurrent
  rw [hballots, hr]

theorem currentScore_congr {db db' : BoxDB} (hvotes : db'.votes = db.votes)
    (hballots : db'.ballots = db.ballots) (c : Nat)
    (hr : (db'.targetStates c).resetAt = (db.targetStates c).resetAt) :
    currentScore db' c = currentScore db c := by
  unfold currentScore
  rw [hvotes, List.filter_congr (fun v _ => countsForScore_congr hballots c hr v)]

theorem yesVoters_congr {db db' : BoxDB} (hvotes : db'.votes = db.votes)
    (hballots : db'.ballots = db.ballots) (c : Nat)
    (hr : (db'.targetStates c).resetAt = (db.targetStates c).resetAt) :
    yesVoters db' c = yesVoters db c := by
  unfold yesVoters
  rw [hballots]
  congr 1
  apply List.filter_congr
  intro b _
  unfold hasYesVote
  rw [hvotes, hr]

theorem setTargetState_resetAt_self (db : BoxDB) (cfgId : Nat) (ts : TargetStateRow) :
    ((setTargetState db cfgId ts).targetStates cfgId).resetAt = ts.resetAt := by
  simp [setTargetState]

theorem updateTargetStateCfg_frame (bb : BallotBox) (db : BoxDB) (cfgId : Nat) :
    (updateTargetStateCfg bb db cfgId).1.votes = db.votes ∧
    (updateTargetStateCfg bb db cfgId).1.ballots = db.ballots ∧
    (updateTargetStateCfg bb db cfgId).1.now = db.now ∧
    (updateTargetStateCfg bb db cfgId).1.nextBallotId = db.nextBallotId ∧
    (∀ c, c ≠ cfgId →
      (updateTargetStateCfg bb db cfgId).1.targetStates c = db.targetStates c ∧
      (updateTargetStateCfg bb db cfgId).1.votingRules c = db.votingRules c) ∧
    (updateTargetStateCfg bb db cfgId).1.targetStates cfgId = nextOf bb db cfgId := by
  refine ⟨rfl, rfl, rfl, rfl, ?_, ?_⟩
  · intro c hc
    constructor <;> simp [updateTargetStateCfg, setTargetState, setVotingRule, hc]
  · simp [updateTargetStateCfg, setTargetState, setVotingRule, nextOf]

theorem updateTargetStateCfg_resetAt (bb : BallotBox) (db : BoxDB) (cfgId c : Nat) :
    ((updateTargetStateCfg bb db cfgId).1.targetStates c).resetAt =
      (db.targetStates c).resetAt := by
  by_cases hc : c = cfgId
  · subst hc
    rw [(updateTargetStateCfg_frame bb db c).2.2.2.2.2]
    rfl
  · rw [((updateTargetStateCfg_frame bb db cfgId).2.2.2.2.1 c hc).1]

theorem currentScore_after_update (bb : BallotBox) (db : BoxDB) (cfgId c : Nat) :
    currentScore (updateTargetStateCfg bb db cfgId).1 c = currentScore db c :=
  currentScore_congr (updateTargetStateCfg_frame bb db cfgId).1
    (updateTargetStateCfg_frame bb db cfgId).2.1 c
    (updateTargetStateCfg_resetAt bb db cfgId c)

theorem yesVoters_after_update (bb : BallotBox) (db : BoxDB) (cfgId c : Nat) :
    yesVoters (updateTargetStateCfg bb db cfgId).1 c = yesVoters db c :=
  yesVoters_congr (updateTargetStateCfg_frame bb db cfgId).1
    (updateTargetStateCfg_frame bb db cfgId).2.1 c
    (updateTargetStateCfg_resetAt bb db cfgId c)

theorem syncRule_fst (stored desired : Option RuleRow) :
    (syncRule stored desired).1 = desired := by
  unfold syncRule
  rcases stored with _ | s <;> rcases desired with _ | d <;> try rfl
  by_cases h : s = d <;> simp [h]

theorem yesVoters_setTargetState (bb : BallotBox) (db : BoxDB) (cfgId : Nat) :
    yesVoters (setTargetState db cfgId (nextOf bb db cfgId)) cfgId =
      yesVoters db cfgId :=
  @yesVoters_congr db (setTargetState db cfgId (nextOf bb db cfgId)) rfl rfl cfgId
    (by rw [setTargetState_resetAt_self]; rfl)

theorem updateTargetStateCfg_rules (bb : BallotBox) (db : BoxDB) (cfgId : Nat) :
    (updateTargetStateCfg bb db cfgId).1.votingRules cfgId =
      desiredRule (nextOf bb db cfgId).state (yesVoters db cfgId) := by
  unfold updateTargetStateCfg
  simp only [setVotingRule, if_pos rfl, syncRule_fst]
  rw [yesVoters_setTargetState]
  simp

theorem updateTargetStateCfg_events (bb : BallotBox) (db : BoxDB) (cfgId : Nat) :
    (updateTargetStateCfg bb db cfgId).2 =
      (if nextOf bb db cfgId = db.targetStates cfgId then []
       else [.targetStateUpdate cfgId (db.targetStates cfgId) (nextOf bb db cfgId)]) ++
      (match (syncRule (db.votingRules cfgId)
          (desiredRule (nextOf bb db cfgId).state (yesVoters db cfgId))).2 with
       | some e => [.ruleUpdate cfgId e]
       | none => []) := by
  unfold updateTargetStateCfg
  simp only []
  rw [yesVoters_setTargetState]
  rfl

/-! ## Claim C3: the rule synthesizer -/

theorem syncRule_snd_none (d : Option RuleRow) : (syncRule d d).2 = none := by
  rcases d with _ | r <;> simp [syncRule]

/-- C3, amended.  After a score/state update: PARTIALLY_ALLOWLISTED
stores an ALLOWLIST voting rule whose primary users are the sorted,
deduplicated usernames of the voters with a current unexpired yes vote;
GLOBALLY_ALLOWLISTED stores an ALLOWLIST rule with empty primary users;
BANNED stores a BLOCKLIST rule with no primary users; UNTRUSTED and
SUSPECT store no voting rule.  A second run right after changes nothing
and emits no event (idempotence); the stored row — however manually
drifted — never influences the recomputed result; the synchroniser
emits created / updated / deleted exactly by the stored/desired
difference; and the update diff carries a field only when that field
changed.  Every branch is a total function: no error is ever raised. -/
theorem rule_synthesizer_spec (bb : BallotBox) (db : BoxDB) (cfgId : Nat) :
    (((updateTargetStateCfg bb db cfgId).1.targetStates cfgId).state = .PARTIALLY_ALLOWLISTED →
      (updateTargetStateCfg bb db cfgId).1.votingRules cfgId =
        some { policy := .ALLOWLIST, isVotingRule := true,
               primaryUsers := sortedDedup (yesVoters db cfgId), customMsg := "" } ∧
      StrSorted (sortedDedup (yesVoters db cfgId)) ∧
      (sortedDedup (yesVoters db cfgId)).Nodup ∧
      ∀ un, un ∈ sortedDedup (yesVoters db cfgId) ↔ un ∈ yesVoters db cfgId) ∧
    (((updateTargetStateCfg bb db cfgId).1.targetStates cfgId).state = .GLOBALLY_ALLOWLISTED →
      (updateTargetStateCfg bb db cfgId).1.votingRules cfgId =
        some { policy := .ALLOWLIST, isVotingRule := true, primaryUsers := [],
               customMsg := "" }) ∧
    (((updateTargetStateCfg bb db cfgId).1.targetStates cfgId).state = .BANNED →
      (updateTargetStateCfg bb db cfgId).1.votingRules cfgId =
        some { policy := .BLOCKLIST, isVotingRule := true, primaryUsers := [],
               customMsg := "" }) ∧
    (((updateTargetStateCfg bb db cfgId).1.targetStates cfgId).state = .UNTRUSTED ∨
     ((updateTargetStateCfg bb db cfgId).1.targetStates cfgId).state = .SUSPECT →
      (updateTargetStateCfg bb db cfgId).1.votingRules cfgId = none) ∧
    ((updateTargetStateCfg bb (updateTargetStateCfg bb db cfgId).1 cfgId).1.targetStates cfgId =
       (updateTargetStateCfg bb db cfgId).1.targetStates cfgId ∧
     (updateTargetStateCfg bb (updateTargetStateCfg bb db cfgId).1 cfgId).1.votingRules cfgId =
       (updateTargetStateCfg bb db cfgId).1.votingRules cfgId ∧
     (updateTargetStateCfg bb (updateTargetStateCfg bb db cfgId).1 cfgId).2 = []) ∧
    (∀ r₀, (updateTargetStateCfg bb (setVotingRule db cfgId r₀) cfgId).1.votingRules cfgId =
      (updateTargetStateCfg bb db cfgId).1.votingRules cfgId) ∧
    (∀ stored desired : Option RuleRow,
      (syncRule stored desired).1 = desired ∧
      ((syncRule stored desired).2 = none ↔ stored = desired) ∧
      (∀ d, stored = none → desired = some d →
        (syncRule stored desired).2 = some (.created d)) ∧
      (∀ s, stored = some s → desired = none →
        (syncRule stored desired).2 = some (.deleted s)) ∧
      (∀ s d, stored = some s → desired = some d → s ≠ d →
        (syncRule stored desired).2 = some (.updated d (ruleDiff s d)))) ∧
    (∀ old new : RuleRow,
      ((ruleDiff old new).policyAdded.isSome ↔ old.policy ≠ new.policy) ∧
      ((ruleDiff old new).customMsgAdded.isSome ↔ old.customMsg ≠ new.customMsg) ∧
      ((ruleDiff old new).usersAdded = [] ↔ ∀ x ∈ new.primaryUsers, x ∈ old.primaryUsers) ∧
      ((ruleDiff old new).usersRemoved = [] ↔ ∀ x ∈ old.primaryUsers, x ∈ new.primaryUsers) ∧
      (old = new → ruleDiff old new =
        { policyAdded := none, policyRemoved := none, usersAdded := [], usersRemoved := [],
          customMsgAdded := none, customMsgRemoved := none })) := by
  have hts := (updateTargetStateCfg_frame bb db cfgId).2.2.2.2.2
  have hrule := updateTargetStateCfg_rules bb db cfgId
  have hscore2 := currentScore_after_update bb db cfgId cfgId
  have hyv2 := yesVoters_after_update bb db cfgId cfgId
  have hnext2 : nextOf bb (updateTargetStateCfg bb db cfgId).1 cfgId = nextOf bb db cfgId := by
    unfold nextOf
    rw [hscore2, updateTargetStateCfg_resetAt]
  refine ⟨?_, ?_, ?_, ?_, ?_, ?_, ?_, ?_⟩
  · intro h
    rw [hts] at h
    rw [hrule]
    refine ⟨?_, sortedDedup_sorted _, sortedDedup_nodup _, fun un => mem_sortedDedup un _⟩
    rw [h]
    rfl
  · intro h
    rw [hts] at h
    rw [hrule, h]
    rfl
  · intro h
    rw [hts] at h
    rw [hrule, h]
    rfl
  · intro h
    rw [hts] at h
    rw [hrule]
    rcases h with h | h <;> rw [h] <;> rfl
  · have hts2 := (updateTargetStateCfg_frame bb (updateTargetStateCfg bb db cfgId).1 cfgId).2.2.2.2.2
    have hrule2 := updateTargetStateCfg_rules bb (updateTargetStateCfg bb db cfgId).1 cfgId
    have hevs2 := updateTargetStateCfg_events bb (updateTargetStateCfg bb db cfgId).1 cfgId
    refine ⟨?_, ?_, ?_⟩
    · rw [hts2, hnext2, hts]
    · rw [hrule2, hnext2, hyv2, hrule]
    · rw [hevs2, hnext2, hyv2, hts, if_pos rfl, hrule, syncRule_snd_none]
      rfl
  · intro r₀
    have hr : (updateTargetStateCfg bb (setVotingRule db cfgId r₀) cfgId).1.votingRules cfgId =
        desiredRule (nextOf bb (setVotingRule db cfgId r₀) cfgId).state
          (yesVoters (setVotingRule db cfgId r₀) cfgId) :=
      updateTargetStateCfg_rules bb (setVotingRule db cfgId r₀) cfgId
    have h1 : nextOf bb (setVotingRule db cfgId r₀) cfgId = nextOf bb db cfgId := rfl
    have h2 : yesVoters (setVotingRule db cfgId r₀) cfgId = yesVoters db cfgId := rfl
    rw [hr, h1, h2, hrule]
  · intro stored desired
    refine ⟨syncRule_fst stored desired, ?_, ?_, ?_, ?_⟩
    · rcases stored with _ | s <;> rcases desired with _ | d <;>
        try simp [syncRule]
      by_cases h : s = d <;> simp [syncRule, h]
    · rintro d rfl rfl
      rfl
    · rintro s rfl rfl
      rfl
    · rintro s d rfl rfl hne
      simp [syncRule, hne]
  · intro old new
    refine ⟨?_, ?_, ?_, ?_, ?_⟩
    · by_cases h : old.policy = new.policy <;> simp [ruleDiff, h]
    · by_cases h : old.customMsg = new.customMsg <;> simp [ruleDiff, h]
    · simp [ruleDiff, List.filter_eq_nil_iff]
    · simp [ruleDiff, List.filter_eq_nil_iff]
    · intro h
      subst h
      simp [ruleDiff, List.filter_eq_nil_iff]

/-- A database with current yes ballots by bob and alice on
configuration 1 (score 6 under `smallCfg`) and a manually drifted
stored voting rule (BLOCKLIST, stale user, stale message). -/
def twoYesDB : BoxDB :=
  { emptyDB with
    ballots := [⟨0, "bob", none⟩, ⟨1, "alice", none⟩]
    votes := [⟨0, 1, 3, true, 0⟩, ⟨1, 1, 3, true, 1⟩]
    votingRules := fun c =>
      if c = 1 then
        some { policy := .BLOCKLIST, isVotingRule := true, primaryUsers := ["zed"],
               customMsg := "yolo" }
      else none
    nextBallotId := 2
    now := 2 }

/-- The `smallCfg` thresholds with global allowlisting at 4, so the
score 6 of `twoYesDB` crosses the global threshold (the situation of
Scenario B's last vote). -/
def globalCfg : Configuration :=
  { id := 1
    defaultBallotTargetTypes := [.BINARY]
    defaultVotingWeight := 3
    partiallyAllowlistedThreshold := 2
    globallyAllowlistedThreshold := 4
    bannedThreshold := -26 }

/-- Alice's ballot box under `globalCfg`. -/
def globalBox : BallotBox :=
  { aliceBox with cfgs := fun _ => globalCfg }

/-- C3, counterexample.  When the update lands in GLOBALLY_ALLOWLISTED
the stored voting rule has empty primary_users even though two voters
hold current unexpired yes votes — not the sorted deduplicated yes
voters the claim demands for that state (the staged test empties the
rule's primary_users on the transition to GLOBALLY_ALLOWLISTED,
src/tests/santa/test_ballot_box.py lines 819-841). -/
theorem globally_allowlisted_empty_primary_users :
    ((updateTargetStateCfg globalBox twoYesDB 1).1.targetStates 1).state =
      .GLOBALLY_ALLOWLISTED ∧
    sortedDedup (yesVoters twoYesDB 1) = ["alice", "bob"] ∧
    (updateTargetStateCfg globalBox twoYesDB 1).1.votingRules 1 =
      some { policy := .ALLOWLIST, isVotingRule := true, primaryUsers := [],
             customMsg := "" } ∧
    (updateTargetStateCfg globalBox twoYesDB 1).1.votingRules 1 ≠
      some { policy := .ALLOWLIST, isVotingRule := true,
             primaryUsers := sortedDedup (yesVoters twoYesDB 1), customMsg := "" } :=
  ⟨by decide, by decide, by decide, by decide⟩

/-- C3 witness: on the drifted database the update under `smallCfg`
lands in PARTIALLY_ALLOWLISTED and heals the rule to ALLOWLIST with the
sorted deduplicated yes voters, while under `globalCfg` it lands in
GLOBALLY_ALLOWLISTED and heals the rule to ALLOWLIST with empty
primary users. -/
theorem rule_synthesizer_spec_witness :
    ((updateTargetStateCfg aliceBox twoYesDB 1).1.targetStates 1).state =
      .PARTIALLY_ALLOWLISTED ∧
    (updateTargetStateCfg aliceBox twoYesDB 1).1.votingRules 1 =
      some { policy := .ALLOWLIST, isVotingRule := true, primaryUsers := ["alice", "bob"],
             customMsg := "" } ∧
    ((updateTargetStateCfg globalBox twoYesDB 1).1.targetStates 1).state =
      .GLOBALLY_ALLOWLISTED ∧
    (updateTargetStateCfg globalBox twoYesDB 1).1.votingRules 1 =
      some { policy := .ALLOWLIST, isVotingRule := true, primaryUsers := [],
             customMsg := "" } := by
  have h1 : ((updateTargetStateCfg aliceBox twoYesDB 1).1.targetStates 1).state =
      .PARTIALLY_ALLOWLISTED := by decide
  have h2 := ((rule_synthesizer_spec aliceBox twoYesDB 1).1 h1).1
  rw [show sortedDedup (yesVoters twoYesDB 1) = ["alice", "bob"] from by decide] at h2
  have h3 : ((updateTargetStateCfg globalBox twoYesDB 1).1.targetStates 1).state =
      .GLOBALLY_ALLOWLISTED := by decide
  have h4 := (rule_synthesizer_spec globalBox twoYesDB 1).2.1 h3
  exact ⟨h1, h2, h3, h4⟩

/-! ## Claim C2: the score invariant -/

/-- Every stored vote was created strictly before the clock's current
value (writes stamp the current time and then advance the clock). -/
def WFClock (db : BoxDB) : Prop :=
  ∀ v ∈ db.votes, v.createdAt < db.now

/-- The §3 invariant at one configuration: the stored score equals the
aggregated score of the contributing votes. -/
def scoreInvAt (db : BoxDB) (c : Nat) : Prop :=
  (db.targetStates c).score = currentScore db c

/-- The database part of `_updateTargetStates`: the per-configuration
updates folded over the submitted votes. -/
def applyUpdates (bb : BallotBox) (db : BoxDB) (votes : List (Nat × Bool)) : BoxDB :=
  votes.foldl (fun d p => (updateTargetStateCfg bb d p.1).1) db

theorem updateTargetStates_fst (bb : BallotBox) :
    ∀ (votes : List (Nat × Bool)) (db : BoxDB) (es : List BoxEvent),
    (votes.foldl (fun acc p =>
        let r := updateTargetStateCfg bb acc.1 p.1
        (r.1, acc.2 ++ r.2)) (db, es)).1 = applyUpdates bb db votes
  | [], _, _ => rfl
  | p :: rest, db, es =>
    updateTargetStates_fst bb rest (updateTargetStateCfg bb db p.1).1 (es ++ _)

theorem updateTargetStates_db (bb : BallotBox) (db : BoxDB) (votes : List (Nat × Bool)) :
    (updateTargetStates bb db votes).1 = applyUpdates bb db votes :=
  updateTargetStates_fst bb votes db []

theorem applyUpdates_frame (bb : BallotBox) :
    ∀ (votes : List (Nat × Bool)) (db : BoxDB),
    (applyUpdates bb db votes).votes = db.votes ∧
    (applyUpdates bb db votes).ballots = db.ballots ∧
    (applyUpdates bb db votes).now = db.now ∧
    ∀ c, ((applyUpdates bb db votes).targetStates c).resetAt =
      (db.targetStates c).resetAt
  | [], _ => ⟨rfl, rfl, rfl, fun _ => rfl⟩
  | p :: rest, db => by
    have hstep := updateTargetStateCfg_frame bb db p.1
    have ih := applyUpdates_frame bb rest (updateTargetStateCfg bb db p.1).1
    refine ⟨?_, ?_, ?_, ?_⟩
    · rw [show applyUpdates bb db (p :: rest) =
          applyUpdates bb (updateTargetStateCfg bb db p.1).1 rest from rfl,
        ih.1, hstep.1]
    · rw [show applyUpdates bb db (p :: rest) =
          applyUpdates bb (updateTargetStateCfg bb db p.1).1 rest from rfl,
        ih.2.1, hstep.2.1]
    · rw [show applyUpdates bb db (p :: rest) =
          applyUpdates bb (updateTargetStateCfg bb db p.1).1 rest from rfl,
        ih.2.2.1, hstep.2.2.1]
    · intro c
      rw [show applyUpdates bb db (p :: rest) =
          applyUpdates bb (updateTargetStateCfg bb db p.1).1 rest from rfl,
        ih.2.2.2 c, updateTargetStateCfg_resetAt]

theorem updateTargetStateCfg_scoreInv (bb : BallotBox) (db : BoxDB) (cfgId c : Nat) :
    (scoreInvAt db c ∨ c = cfgId) →
    scoreInvAt (updateTargetStateCfg bb db cfgId).1 c := by
  intro h
  by_cases hc : c = cfgId
  · subst hc
    unfold scoreInvAt
    rw [(updateTargetStateCfg_frame bb db c).2.2.2.2.2, currentScore_after_update]
    rfl
  · rcases h with h | h
    · unfold scoreInvAt at h ⊢
      rw [((updateTargetStateCfg_frame bb db cfgId).2.2.2.2.1 c hc).1,
        currentScore_after_update]
      exact h
    · exact absurd h hc

theorem applyUpdates_scoreInv (bb : BallotBox) :
    ∀ (votes : List (Nat × Bool)) (db : BoxDB) (c : Nat),
    (scoreInvAt db c ∨ c ∈ votes.map Prod.fst) →
    scoreInvAt (applyUpdates bb db votes) c
  | [], db, c, h => by
    rcases h with h | h
    · exact h
    · cases h
  | p :: rest, db, c, h => by
    have hstep : scoreInvAt (updateTargetStateCfg bb db p.1).1 c ∨ c ∈ rest.map Prod.fst := by
      by_cases hc : c = p.1
      · exact Or.inl (updateTargetStateCfg_scoreInv bb db p.1 c (Or.inr hc))
      · rcases h with h | h
        · exact Or.inl (updateTargetStateCfg_scoreInv bb db p.1 c (Or.inl h))
        · rcases List.mem_cons.mp h with h' | h'
          · exact absurd h' hc
          · exact Or.inr h'
    exact applyUpdates_scoreInv bb rest (updateTargetStateCfg bb db p.1).1 c hstep

theorem createOrUpdateBallot_ok_shape (bb : BallotBox) (u : String)
    (votes : List (Nat × Bool)) (db db' : BoxDB) (newId : Nat)
    (heq : createOrUpdateBallot bb u votes db = .ok (db', newId)) :
    db'.votes = db.votes ++ votes.map (mkVoteRow bb db db.nextBallotId) ∧
    db'.now = db.now + 1 ∧
    db'.targetStates = db.targetStates := by
  rw [createOrUpdateBallot] at heq
  rcases hcur : currentBallotFor db u with _ | b0 <;> simp only [hcur] at heq
  · cases heq
    exact ⟨rfl, rfl, rfl⟩
  · split_ifs at heq
    cases heq
    exact ⟨rfl, rfl, rfl⟩

theorem runReset_wf_inv (bb : BallotBox) (db : BoxDB) (cfgId : Nat)
    (hperm : bb.voter.canResetTarget cfgId = true) (hwf : WFClock db) :
    WFClock (runReset bb db cfgId).1 ∧ scoreInvAt (runReset bb db cfgId).1 cfgId := by
  have hv0 : (runReset bb db cfgId).1.votes = db.votes := by
    unfold runReset resetTargetState
    rw [if_pos hperm]
    rfl
  have hn0 : (runReset bb db cfgId).1.now = db.now + 1 := by
    unfold runReset resetTargetState
    rw [if_pos hperm]
    rfl
  have hts : (runReset bb db cfgId).1.targetStates cfgId =
      { score := 0, state := .UNTRUSTED, flagged := false, resetAt := some db.now } := by
    unfold runReset resetTargetState
    rw [if_pos hperm]
    show (if cfgId = cfgId then _ else _) = _
    rw [if_pos rfl]
  constructor
  · intro v hv
    rw [hv0] at hv
    rw [hn0]
    exact lt_trans (hwf v hv) (Nat.lt_succ_self _)
  · unfold scoreInvAt currentScore
    have hfe : List.filter (countsForScore (runReset bb db cfgId).1 cfgId) db.votes = [] := by
      rw [List.filter_eq_nil_iff]
      intro v hv
      unfold countsForScore
      rw [hts]
      have hlt := hwf v hv
      simp only [afterReset, Bool.and_eq_true, decide_eq_true_eq]
      rintro ⟨⟨-, habs⟩, -⟩
      omega
    rw [hts, hv0, hfe]
    rfl

theorem applyOp_scoreInv (db : BoxDB) (op : Op) (c : Nat)
    (hwf : WFClock db) (hinv : scoreInvAt db c) (htouch : opTouches c op) :
    WFClock (applyOp db op) ∧ scoreInvAt (applyOp db op) c := by
  rcases op with ⟨bb, votes⟩ | ⟨bb, cfgId⟩
  · show WFClock (runCast bb db votes).1 ∧ scoreInvAt (runCast bb db votes).1 c
    rw [runCast]
    rcases hcast : castVotes bb db votes with e | r
    · exact ⟨hwf, hinv⟩
    · rw [castVotes] at hcast
      rcases hu : bb.voter.username with _ | u <;> simp only [hu] at hcast
      · cases hcast
      · by_cases he : votes.isEmpty = true
        · rw [if_pos he] at hcast
          cases hcast
        · rw [if_neg he] at hcast
          rcases hfind : votes.find?
              (fun p => (checkVotingAllowed (mkVotingContext bb db p.1) p.2).isSome) with
              _ | p <;> simp only [hfind] at hcast
          · rcases hco : createOrUpdateBallot bb u votes db with e1 | ⟨db1, newId⟩ <;>
              simp only [hco] at hcast
            · cases hcast
            · obtain ⟨hv1, hn1, hts1⟩ :=
                createOrUpdateBallot_ok_shape bb u votes db db1 newId hco
              cases hcast
              have hdb2 : (updateTargetStates bb db1 votes).1 = applyUpdates bb db1 votes :=
                updateTargetStates_db bb db1 votes
              have hframe := applyUpdates_frame bb votes db1
              constructor
              · intro v hv
                change v ∈ (updateTargetStates bb db1 votes).1.votes at hv
                change v.createdAt < (updateTargetStates bb db1 votes).1.now
                rw [hdb2] at hv ⊢
                rw [hframe.1, hv1] at hv
                rw [hframe.2.2.1, hn1]
                rcases List.mem_append.mp hv with hv | hv
                · exact lt_trans (hwf v hv) (Nat.lt_succ_self _)
                · rcases List.mem_map.mp hv with ⟨q, _, rfl⟩
                  exact Nat.lt_succ_self _
              · change scoreInvAt (updateTargetStates bb db1 votes).1 c
                rw [hdb2]
                exact applyUpdates_scoreInv bb votes db1 c (Or.inr htouch)
          · cases hcast
  · have hc : cfgId = c := htouch
    subst hc
    show WFClock (runReset bb db cfgId).1 ∧ scoreInvAt (runReset bb db cfgId).1 cfgId
    rcases hperm : bb.voter.canResetTarget cfgId with _ | _
    · have hrr : runReset bb db cfgId = (db, some .resetNotAllowedError, []) := by
        unfold runReset resetTargetState
        rw [if_neg (by simp [hperm])]
      rw [hrr]
      exact ⟨hwf, hinv⟩
    · exact runReset_wf_inv bb db cfgId hperm hwf

theorem runOps_scoreInv : ∀ (ops : List Op) (db : BoxDB) (c : Nat),
    WFClock db → scoreInvAt db c → (∀ op ∈ ops, opTouches c op) →
    WFClock (runOps db ops) ∧ scoreInvAt (runOps db ops) c
  | [], db, c, hwf, hinv, _ => ⟨hwf, hinv⟩
  | op :: rest, db, c, hwf, hinv, htouch => by
    have hstep := applyOp_scoreInv db op c hwf hinv (htouch op (List.mem_cons_self op rest))
    have ih := runOps_scoreInv rest (applyOp db op) c hstep.1 hstep.2
      (fun o ho => htouch o (List.mem_cons_of_mem op ho))
    exact ih

/-- The history of
test_ballot_box_update_target_state_to_suspect_to_untrusted: the same
voter downvotes and then replaces the ballot with an upvote on
configuration 1. -/
def replacedOps : List Op :=
  [.cast aliceBox [(1, false)], .cast aliceBox [(1, true)]]

/-- C2, counterexample.  After the downvote-then-upvote history the
stored score is 3 — only the current ballot's yes vote — while the sum
over all vote rows after the latest reset, including the replaced
ballot's vote as the claim demands, is -3 + 3 = 0.  The claim's
"including votes belonging to ballots that were later replaced" is
false on the behaviour the staged test pins down (score 3 at line 883
of src/tests/santa/test_ballot_box.py). -/
theorem score_includes_replaced_ballots_counterexample :
    ((runOps emptyDB replacedOps).targetStates 1).score = 3 ∧
    allVotesScore (runOps emptyDB replacedOps) 1 = 0 ∧
    ((runOps emptyDB replacedOps).targetStates 1).score ≠
      allVotesScore (runOps emptyDB replacedOps) 1 :=
  ⟨by decide, by decide, by decide⟩

/-- C2, amended.  For every sequence of cast_votes and resetTargetState
operations addressing a configuration, started from the fresh store,
after the whole sequence (hence after each prefix) the stored
TargetState.score equals the sum of the signed weights of the votes on
that configuration that belong to a current (non-replaced) ballot and
were created after the latest reset — votes of replaced ballots no
longer count. -/
theorem score_invariant_holds (ops : List Op) (c : Nat)
    (h : ∀ op ∈ ops, opTouches c op) :
    ((runOps emptyDB ops).targetStates c).score = currentScore (runOps emptyDB ops) c := by
  have h0 : WFClock emptyDB := by
    intro v hv
    cases hv
  have h1 : scoreInvAt emptyDB c := rfl
  exact (runOps_scoreInv ops emptyDB c h0 h1 h).2

/-- C2 witness: the invariant evaluated on the concrete
downvote-then-upvote history (both operations address
configuration 1). -/
theorem score_invariant_holds_witness :
    (∀ op ∈ replacedOps, opTouches 1 op) ∧
    ((runOps emptyDB replacedOps).targetStates 1).score =
      currentScore (runOps emptyDB replacedOps) 1 := by
  have htouch : ∀ op ∈ replacedOps, opTouches 1 op := by
    intro op hop
    rcases List.mem_cons.mp hop with rfl | hop
    · show (1 : Nat) ∈ [((1 : Nat), false)].map Prod.fst
      simp
    rcases List.mem_cons.mp hop with rfl | hop
    · show (1 : Nat) ∈ [((1 : Nat), true)].map Prod.fst
      simp
    · cases hop
  exact ⟨htouch, score_invariant_holds replacedOps 1 htouch⟩

end Santa
